import Mathlib

/-!
SD card demo firmware (STM32F407): shallow embedding and verified properties.

The definitions below embed the BSP layer of the three demo projects
(`sd_card .c` of `02_F407_SD_Test` / `03_F407_SD_DMA`, `file_opera.c` of
`04_F407_SD_FAT`).  Machine integers are natural numbers, narrowed explicitly
with `% 2 ^ w` wherever the C code narrows.  The vendor HAL and the FatFs
library are the environment: what they answer is an input of each function,
what the firmware asks of them is recorded in a call log, and what the firmware
prints over the UART is recorded as a list of `printf` records.
-/

namespace SDCard

/-! ## Machine integers -/

/-- Narrowing to `uint16_t` / `WORD`. -/
def to_u16 (n : Nat) : Nat := n % 65536

/-- Narrowing to `uint32_t` / `DWORD` / `UINT`. -/
def to_u32 (n : Nat) : Nat := n % 4294967296

/-! ## Environment: HAL status, FatFs result codes, UART output, call log -/

/-- The status type of the vendor HAL. -/
inductive HAL_StatusTypeDef
  | HAL_OK
  | HAL_ERROR
  | HAL_BUSY
  | HAL_TIMEOUT
  deriving DecidableEq, Repr

/-- The result code of the FatFs API. -/
inductive FRESULT
  | FR_OK
  | FR_DISK_ERR
  | FR_INT_ERR
  | FR_NOT_READY
  | FR_NO_FILE
  | FR_NO_PATH
  | FR_INVALID_NAME
  | FR_DENIED
  | FR_EXIST
  | FR_INVALID_OBJECT
  | FR_WRITE_PROTECTED
  | FR_INVALID_DRIVE
  | FR_NOT_ENABLED
  | FR_NO_FILESYSTEM
  | FR_MKFS_ABORTED
  | FR_TIMEOUT
  | FR_LOCKED
  | FR_NOT_ENOUGH_CORE
  | FR_TOO_MANY_OPEN_FILES
  | FR_INVALID_PARAMETER
  deriving DecidableEq, Repr

/-- One argument handed to `printf`: an integer (`%d`, `%X`), a string (`%s`),
or a word read outside the bounds of its array. -/
inductive PArg
  | num (n : Nat)
  | str (s : String)
  | outOfBounds
  deriving DecidableEq, Repr

/-- One `printf` call on the UART: the format string and its arguments. -/
structure Printf where
  fmt : String
  args : List PArg
  deriving DecidableEq, Repr

/-- A call the firmware makes into the HAL or into FatFs. -/
inductive Call
  | HAL_RTC_GetTime
  | HAL_RTC_GetDate
  | HAL_SD_GetCardInfo
  | HAL_SD_Erase (BlockStartAdd BlockEndAdd : Nat)
  | HAL_SD_GetCardState
  | HAL_Delay (ms : Nat)
  | f_getfree
  | f_opendir
  | f_readdir
  | f_closedir
  | f_open
  | f_close
  | f_puts
  | f_printf
  | f_write
  | f_gets
  | f_read
  | f_stat
  deriving DecidableEq, Repr

/-! ## `file_opera.c`: FAT timestamp from the RTC -/

/-- The HAL time structure (binary format), fields of type `uint8_t`. -/
structure RTC_TimeTypeDef where
  Hours : Nat
  Minutes : Nat
  Seconds : Nat
  deriving DecidableEq, Repr

/-- The HAL date structure (binary format), fields of type `uint8_t`. -/
structure RTC_DateTypeDef where
  WeekDay : Nat
  Month : Nat
  Date : Nat
  Year : Nat
  deriving DecidableEq, Repr

/-- The RTC as the firmware sees it through `hrtc`: the status answered by
`HAL_RTC_GetTime` and `HAL_RTC_GetDate`, and the content of `sTime` / `sDate`
once the respective call has returned. -/
structure RTC_HandleTypeDef where
  timeStatus : HAL_StatusTypeDef
  sTime : RTC_TimeTypeDef
  dateStatus : HAL_StatusTypeDef
  sDate : RTC_DateTypeDef
  deriving DecidableEq, Repr

/-- The 16-bit date word built by `fat_GetFatTimeFromRTC`, before narrowing
(the expression is evaluated in `int`). -/
def fatDateExpr (sDate : RTC_DateTypeDef) : Nat :=
  ((2000 + sDate.Year - 1980) <<< 9) ||| (sDate.Month <<< 5) ||| sDate.Date

/-- The 16-bit time word built by `fat_GetFatTimeFromRTC`, before narrowing. -/
def fatTimeExpr (sTime : RTC_TimeTypeDef) : Nat :=
  (sTime.Hours <<< 11) ||| (sTime.Minutes <<< 5) ||| (sTime.Seconds >>> 1)

/-- The call `HAL_RTC_GetTime(&hrtc, &sTime, RTC_FORMAT_BIN)`: the status, the content
of `sTime` afterwards, and the call log extended by this call. -/
def HAL_RTC_GetTime (hrtc : RTC_HandleTypeDef) (log : List Call) :
    HAL_StatusTypeDef × RTC_TimeTypeDef × List Call :=
  (hrtc.timeStatus, hrtc.sTime, log ++ [Call.HAL_RTC_GetTime])

/-- The call `HAL_RTC_GetDate(&hrtc, &sDate, RTC_FORMAT_BIN)`: the status, the content
of `sDate` afterwards, and the call log extended by this call. -/
def HAL_RTC_GetDate (hrtc : RTC_HandleTypeDef) (log : List Call) :
    HAL_StatusTypeDef × RTC_DateTypeDef × List Call :=
  (hrtc.dateStatus, hrtc.sDate, log ++ [Call.HAL_RTC_GetDate])

/-- The function `DWORD fat_GetFatTimeFromRTC()`: the returned value and the HAL calls made. -/
def fat_GetFatTimeFromRTC (hrtc : RTC_HandleTypeDef) : Nat × List Call :=
  let t := HAL_RTC_GetTime hrtc []
  if t.1 = HAL_StatusTypeDef.HAL_OK then
    let sTime := t.2.1
    -- the status of `HAL_RTC_GetDate` is discarded
    let d := HAL_RTC_GetDate hrtc t.2.2
    let sDate := d.2.1
    let date := to_u16 (fatDateExpr sDate)
    let time := to_u16 (fatTimeExpr sTime)
    let fatTime := to_u32 (date <<< 16) ||| time
    (fatTime, d.2.2)
  else
    (0, t.2.2)

/-- The reading used as the worked example of the specification:
2024-03-15 10:30:20 (the RTC year register holds 24). -/
def rtc_2024_03_15 : RTC_HandleTypeDef :=
  { timeStatus := HAL_StatusTypeDef.HAL_OK
    sTime := { Hours := 10, Minutes := 30, Seconds := 20 }
    dateStatus := HAL_StatusTypeDef.HAL_OK
    sDate := { WeekDay := 5, Month := 3, Date := 15, Year := 24 } }

/-- An RTC whose time read times out. -/
def rtc_time_fault : RTC_HandleTypeDef :=
  { rtc_2024_03_15 with timeStatus := HAL_StatusTypeDef.HAL_TIMEOUT }

/-! ## `file_opera.c`: file information -/

/-- The FatFs file information structure. -/
structure FILINFO where
  fsize : Nat
  fdate : Nat
  ftime : Nat
  fattrib : Nat
  fname : String
  deriving DecidableEq, Repr

/-- The function `void fatTest_GetFileInfo(TCHAR* filename)`: the UART output, given the
answer of `f_stat` (result code and the structure it fills in). -/
def fatTest_GetFileInfo (filename : String) (res : FRESULT) (file_info : FILINFO) :
    List Printf :=
  [⟨"File info of: %s\r\n", [PArg.str filename]⟩,
   ⟨"--------------------------------\r\n", []⟩] ++
  if res = FRESULT.FR_OK then
    let day := to_u16 (file_info.fdate &&& 0x001F)
    let month := to_u16 ((file_info.fdate &&& 0x01E0) >>> 5)
    let year := to_u16 (1980 + ((file_info.fdate &&& 0xFE00) >>> 9))
    let hours := to_u16 ((file_info.ftime &&& 0xF800) >>> 11)
    let minutes := to_u16 ((file_info.ftime &&& 0x07E0) >>> 5)
    let seconds := to_u16 ((file_info.ftime &&& 0x001F) <<< 1)
    [⟨"File size(bytes) = %d\r\n", [PArg.num file_info.fsize]⟩,
     ⟨"File attribute = 0x%X\r\n", [PArg.num file_info.fattrib]⟩,
     ⟨"File name = %s\r\n", [PArg.str file_info.fname]⟩,
     ⟨"File Date = %04d-%02d-%02d\r\n", [PArg.num year, PArg.num month, PArg.num day]⟩,
     ⟨"File Time = %02d:%02d:%02d\r\n",
       [PArg.num hours, PArg.num minutes, PArg.num seconds]⟩,
     ⟨"--------------------------------\r\n", []⟩,
     ⟨"File info retrieved successfully\r\n", []⟩]
  else if res = FRESULT.FR_NO_FILE then
    [⟨"Error: File %s does not exist\r\n", [PArg.str filename]⟩]
  else
    [⟨"Error: Failed to get file info for %s\r\n", [PArg.str filename]⟩]

/-! ## `file_opera.c`: binary files -/

/-- Modelled from the spec: the FatFs file object of an open file, which is not
among the sources.  `done` holds the bytes before the read/write pointer and
`rest` the bytes from the pointer on, so the file content is `done ++ rest` and
the pointer `fptr` is `done.length`. -/
structure FIL where
  done : List Nat
  rest : List Nat
  deriving DecidableEq, Repr

/-- The bytes of the file behind a file object. -/
def FIL.data (fp : FIL) : List Nat := fp.done ++ fp.rest

/-- Modelled from the spec: `f_write(fp, buff, btw, &bw)` of FatFs stores the
`btw` bytes of `buff` at the pointer, overwriting what was there, and advances
the pointer past them. -/
def f_write (fp : FIL) (buff : List Nat) : FIL :=
  { done := fp.done ++ buff, rest := fp.rest.drop buff.length }

/-- Modelled from the spec: `f_puts(str, fp)` of FatFs writes the characters of
`str` as they are (the identifier line is "terminated by `\n`"; no line-end
conversion). -/
def f_puts (str : String) (fp : FIL) : FIL :=
  f_write fp (str.toList.map Char.toNat)

/-- Modelled from the spec: `f_read(fp, buff, btr, &br)` of FatFs delivers the
next `btr` bytes, fewer at the end of the file, and advances the pointer past
them. -/
def f_read (fp : FIL) (btr : Nat) : List Nat × FIL :=
  (fp.rest.take btr, { done := fp.done ++ fp.rest.take btr, rest := fp.rest.drop btr })

/-- The characters `f_gets` stores when `n` more fit into the buffer: it stops
behind a line feed, at the end of the file, or when the buffer is full. -/
def f_gets_chars : Nat → List Nat → List Nat
  | 0, _ => []
  | _ + 1, [] => []
  | n + 1, c :: cs => if c = 10 then [c] else c :: f_gets_chars n cs

/-- Modelled from the spec: `f_gets(buff, len, fp)` of FatFs reads a line, at
most `len - 1` characters, through the next `\n`; the string stored in `buff`
and the file object afterwards. -/
def f_gets (len : Nat) (fp : FIL) : List Nat × FIL :=
  let s := f_gets_chars (len - 1) fp.rest
  (s, { done := fp.done ++ s, rest := fp.rest.drop s.length })

/-- The object representation of a `uint32_t` (little-endian Cortex-M4). -/
def bytes_of_u32 (v : Nat) : List Nat :=
  [v % 256, v / 256 % 256, v / 65536 % 256, v / 16777216 % 256]

/-- The value of a little-endian byte sequence. -/
def u32_of_bytes : List Nat → Nat
  | [] => 0
  | b :: bs => b + 256 * u32_of_bytes bs

/-- The value of a `uint32_t` object holding `old` after `f_read` has stored
the bytes `bs` at its address (a short read leaves the upper bytes as they
were). -/
def store_u32 (old : Nat) (bs : List Nat) : Nat :=
  u32_of_bytes (bs.take 4 ++ (bytes_of_u32 old).drop bs.length)

/-- The string a `%s` conversion prints from a character buffer: the bytes up
to the first NUL. -/
def cstr (buf : List Nat) : String :=
  String.mk ((buf.takeWhile (· ≠ 0)).map Char.ofNat)

/-- The sample loop of `fatTest_WriteBinFile`:
`for (uint16_t i = 0; i < pointCount; i++, value++) f_write(&file, &value, 4, &bw);`
Every evaluation of the loop condition takes one unit of `fuel`; `none` means
the fuel ran out before the loop exited. -/
def fatTest_WriteBinFile_loop (pointCount : Nat) :
    Nat → Nat → Nat → FIL × List Call → Option (FIL × List Call)
  | 0, _, _, _ => none
  | fuel + 1, i, value, st =>
    if i < pointCount then
      fatTest_WriteBinFile_loop pointCount fuel (to_u16 (i + 1)) (to_u32 (value + 1))
        (f_write st.1 (bytes_of_u32 value), st.2 ++ [Call.f_write])
    else
      some st

/-- What a file-writing function leaves behind: the file object handed to
`f_close` (empty when the file was not opened), the UART output and the FatFs
calls in order. -/
structure WriteResult where
  file : FIL
  out : List Printf
  log : List Call
  deriving DecidableEq, Repr

/-- The function
`void fatTest_WriteBinFile(TCHAR* filename, uint32_t pointCount, uint32_t sampFreq)`,
given the result `res` of `f_open(&file, filename, FA_CREATE_ALWAYS | FA_WRITE)`,
which on success yields an empty file; `none` means the fuel ran out in the
sample loop. -/
def fatTest_WriteBinFile (fuel : Nat) (res : FRESULT) (filename : String)
    (pointCount sampFreq : Nat) : Option WriteResult :=
  let file : FIL := { done := [], rest := [] }
  let log := [Call.f_open]
  if res = FRESULT.FR_OK then
    let file := f_puts "ADC1-IN5\n" file
    let file := f_write file (bytes_of_u32 pointCount)
    let file := f_write file (bytes_of_u32 sampFreq)
    let log := log ++ [Call.f_puts, Call.f_write, Call.f_write]
    match fatTest_WriteBinFile_loop pointCount fuel 0 1000 (file, log) with
    | none => none
    | some st =>
      some { file := st.1
             out := [⟨"Successfully wrote to BIN file: %s\r\n", [PArg.str filename]⟩]
             log := st.2 ++ [Call.f_close] }
  else
    some { file := file
           out := [⟨"Error: Failed to write BIN file: %s\r\n", [PArg.str filename]⟩]
           log := log ++ [Call.f_close] }

/-- What `fatTest_ReadBinFile` does not determine itself: the result of
`f_open(&file, filename, FA_READ)`, the bytes of the file, the indeterminate
initial content of the locals `pointCount` and `sampFreq`, whether `malloc`
of a given size succeeds, and the indeterminate content of the block it
returns (by word index). -/
structure ReadBinEnv where
  res : FRESULT
  data : List Nat
  pointCount0 : Nat
  sampFreq0 : Nat
  mallocOk : Nat → Bool
  block0 : Nat → Nat

/-- The sample loop of `fatTest_ReadBinFile`:
`for (uint16_t i = 0; i < pointCount; i++) f_read(&file, &values[i], 4, &br);`
with the same fuel convention as the write loop.  A store outside the block is
not modelled: the list stays as it is. -/
def fatTest_ReadBinFile_loop (pointCount : Nat) :
    Nat → Nat → FIL × List Nat × List Call → Option (FIL × List Nat × List Call)
  | 0, _, _ => none
  | fuel + 1, i, st =>
    if i < pointCount then
      let r := f_read st.1 4
      fatTest_ReadBinFile_loop pointCount fuel (to_u16 (i + 1))
        (r.2, st.2.1.set i (store_u32 (st.2.1.getD i 0) r.1), st.2.2 ++ [Call.f_read])
    else
      some st

/-- The header fields and samples `fatTest_ReadBinFile` has read (`values` is
`none` when `malloc` returned `NULL`). -/
structure BinData where
  header : List Nat
  pointCount : Nat
  sampFreq : Nat
  values : Option (List Nat)
  deriving DecidableEq, Repr

/-- What `fatTest_ReadBinFile` leaves behind: the data read (`none` when the
file was not opened), the UART output and the FatFs calls in order. -/
structure ReadBinResult where
  read : Option BinData
  out : List Printf
  log : List Call
  deriving DecidableEq, Repr

/-- The `printf` argument for `values[i]`. -/
def wordArg (values : List Nat) (i : Nat) : PArg :=
  match values[i]? with
  | some v => PArg.num v
  | none => PArg.outOfBounds

/-- The function `void fatTest_ReadBinFile(TCHAR* filename)`, run in the
environment `env`; `none` means the fuel ran out in the sample loop. -/
def fatTest_ReadBinFile (fuel : Nat) (filename : String) (env : ReadBinEnv) :
    Option ReadBinResult :=
  let out := [(⟨"Reading BIN file: %s\r\n", [PArg.str filename]⟩ : Printf),
              ⟨"--------------------------------\r\n", []⟩]
  let log := [Call.f_open]
  if env.res = FRESULT.FR_OK then
    let file : FIL := { done := [], rest := env.data }
    let g := f_gets 40 file
    let header := g.1
    let out := out ++ [⟨"Header: %s", [PArg.str (cstr header)]⟩]
    let r := f_read g.2 4
    let pointCount := store_u32 env.pointCount0 r.1
    let out := out ++ [⟨"Point count: %d\r\n", [PArg.num pointCount]⟩]
    let r := f_read r.2 4
    let sampFreq := store_u32 env.sampFreq0 r.1
    let out := out ++ [⟨"Sampling frequency: %d\r\n", [PArg.num sampFreq]⟩]
    let log := log ++ [Call.f_gets, Call.f_read, Call.f_read]
    let size := to_u32 (pointCount * 4)
    if env.mallocOk size then
      let values := (List.range (size / 4)).map env.block0
      match fatTest_ReadBinFile_loop pointCount fuel 0 (r.2, values, log) with
      | none => none
      | some st =>
        let values := st.2.1
        some { read := some { header := header, pointCount := pointCount,
                              sampFreq := sampFreq, values := some values }
               out := out ++
                 [⟨"Sample values:\r\n", []⟩,
                  ⟨"  value[5] = %d\r\n", [wordArg values 5]⟩,
                  ⟨"  value[16] = %d\r\n", [wordArg values 16]⟩,
                  ⟨"--------------------------------\r\n", []⟩,
                  ⟨"BIN file read completed\r\n", []⟩]
               log := st.2.2 ++ [Call.f_close] }
    else
      some { read := some { header := header, pointCount := pointCount,
                            sampFreq := sampFreq, values := none }
             out := out ++
               [⟨"--------------------------------\r\n", []⟩,
                ⟨"BIN file read completed\r\n", []⟩]
             log := log ++ [Call.f_close] }
  else if env.res = FRESULT.FR_NO_FILE then
    some { read := none
           out := out ++ [⟨"Error: File %s does not exist\r\n", [PArg.str filename]⟩]
           log := log ++ [Call.f_close] }
  else
    some { read := none
           out := out ++ [⟨"Error: Failed to open file %s\r\n", [PArg.str filename]⟩]
           log := log ++ [Call.f_close] }

/-- The byte sequence of a binary file with `pointCount` samples: the
identifier line, the two header words, and the samples 1000, 1001, ... -/
def binFileBytes (pointCount sampFreq : Nat) : List Nat :=
  [65, 68, 67, 49, 45, 73, 78, 53, 10] ++ bytes_of_u32 pointCount ++ bytes_of_u32 sampFreq ++
    (List.range pointCount).flatMap (fun i => bytes_of_u32 (1000 + i))

/-- Writing a binary file and reading it back (`main`, keys Up and Right):
the file written by `fatTest_WriteBinFile` is the one `fatTest_ReadBinFile`
opens. -/
def binRoundTrip (fuel : Nat) (filename : String) (pointCount sampFreq : Nat)
    (env : ReadBinEnv) : Option ReadBinResult :=
  match fatTest_WriteBinFile fuel FRESULT.FR_OK filename pointCount sampFreq with
  | none => none
  | some w => fatTest_ReadBinFile fuel filename { env with data := w.file.data }

/-- A heap on which every allocation succeeds, with zeroed blocks, and zeroed
locals: an environment for running `fatTest_ReadBinFile` on `data`. -/
def readEnv (data : List Nat) : ReadBinEnv :=
  { res := FRESULT.FR_OK, data := data, pointCount0 := 0, sampFreq0 := 0,
    mallocOk := fun _ => true, block0 := fun _ => 0 }

/-! ## `file_opera.c`: disk information -/

/-- The FatFs filesystem object, as far as `fatTest_GetDiskInfo` reads it:
`fs_type` (`BYTE`), `csize` (`WORD`, sectors per cluster), `ssize` (`WORD`,
bytes per sector, present in the variable-sector-size build) and `n_fatent`
(`DWORD`, number of FAT entries = clusters + 2). -/
structure FATFS where
  fs_type : Nat
  csize : Nat
  ssize : Nat
  n_fatent : Nat
  deriving DecidableEq, Repr

/-- Subtraction of `DWORD`s. -/
def sub_u32 (a b : Nat) : Nat := (a % 4294967296 + 4294967296 - b % 4294967296) % 4294967296

/-- The local `DWORD total_sector = (fs->n_fatent - 2) * fs->csize;` -/
def total_sector (fs : FATFS) : Nat := to_u32 (sub_u32 fs.n_fatent 2 * fs.csize)

/-- The local `DWORD free_sector = free_clust * fs->csize;` -/
def free_sector (free_clust : Nat) (fs : FATFS) : Nat := to_u32 (free_clust * fs.csize)

/-- The space figure of a sector count: `sector >> 11` (MB) when the sector
size is fixed (`_MAX_SS == _MIN_SS`), `(sector * fs->ssize) >> 10` (KB)
otherwise.  `_MAX_SS` and `_MIN_SS` come from the FatFs configuration. -/
def space (_MAX_SS _MIN_SS : Nat) (fs : FATFS) (sector : Nat) : Nat :=
  if _MAX_SS = _MIN_SS then sector >>> 11 else to_u32 (sector * fs.ssize) >>> 10

/-- The function `void fatTest_GetDiskInfo()`: the UART output, given the answer of
`f_getfree("0:", &free_clust, &fs)`. -/
def fatTest_GetDiskInfo (_MAX_SS _MIN_SS : Nat) (res : FRESULT) (free_clust : Nat)
    (fs : FATFS) : List Printf :=
  if res ≠ FRESULT.FR_OK then
    [⟨"f_getfree() error\r\n", []⟩]
  else
    let total_sector := total_sector fs
    let free_sector := free_sector free_clust fs
    let free_space := space _MAX_SS _MIN_SS fs free_sector
    let total_space := space _MAX_SS _MIN_SS fs total_sector
    let unit (mb kb : String) : String := if _MAX_SS = _MIN_SS then mb else kb
    [⟨"*** FAT disk info ***\r\n", []⟩,
     ⟨"FAT type = %d\r\n", [PArg.num fs.fs_type]⟩,
     ⟨"[1=FAT12,2=FAT16,3=FAT32,4=EXFAT]\r\n", []⟩,
     ⟨"Sector size(bytes) = %d\r\n",
       [PArg.num (if _MAX_SS = _MIN_SS then _MIN_SS else fs.ssize)]⟩,
     ⟨"Cluster size(sectors) = %d\r\n", [PArg.num fs.csize]⟩,
     ⟨"Total cluster count = %d\r\n", [PArg.num (sub_u32 fs.n_fatent 2)]⟩,
     ⟨"Total sector count = %d\r\n", [PArg.num total_sector]⟩,
     ⟨unit "Total space(MB) = %d\r\n" "Total space(KB) = %d\r\n", [PArg.num total_space]⟩,
     ⟨"Free cluster count = %d\r\n", [PArg.num free_clust]⟩,
     ⟨"Free sector count = %d\r\n", [PArg.num free_sector]⟩,
     ⟨unit "Free space(MB) = %d\r\n" "Free space(KB) = %d\r\n", [PArg.num free_space]⟩,
     ⟨"Get FAT disk info OK\r\n", []⟩]

/-- A FAT32 volume of 4 GiB: 2^20 clusters of 8 sectors of 512 bytes. -/
def fs_4GiB : FATFS :=
  { fs_type := 3, csize := 8, ssize := 512, n_fatent := 1048578 }

/-- A FAT32 volume of about 1.9 GiB: 60000 clusters of 64 sectors of 512
bytes. -/
def fs_2GB : FATFS :=
  { fs_type := 3, csize := 64, ssize := 512, n_fatent := 60002 }

/-! ## `file_opera.c`: directory scan -/

/-- Modelled from the spec: the directory attribute bit of FatFs (`ff.h` is not
among the sources), the "attribute bitmask" tested to tell a directory from a
file. -/
def AM_DIR : Nat := 0x10

/-- The loop of `fatTest_ScanDir` over the results still to come from
`f_readdir`.  When the sequence is used up, `f_readdir` answers `FR_OK` with an
empty name, the end-of-directory mark. -/
def fatTest_ScanDir_loop :
    List (FRESULT × FILINFO) → List Printf × List Call → List Printf × List Call
  | [], st => (st.1, st.2 ++ [Call.f_readdir])
  | (res, dir_info) :: dir, st =>
    if res ≠ FRESULT.FR_OK ∨ dir_info.fname = "" then
      (st.1, st.2 ++ [Call.f_readdir])
    else if dir_info.fattrib &&& AM_DIR ≠ 0 then
      fatTest_ScanDir_loop dir
        (st.1 ++ [⟨"DIR   %s\r\n", [PArg.str dir_info.fname]⟩], st.2 ++ [Call.f_readdir])
    else
      fatTest_ScanDir_loop dir
        (st.1 ++ [⟨"FILE  %s\r\n", [PArg.str dir_info.fname]⟩], st.2 ++ [Call.f_readdir])

/-- The function `void fatTest_ScanDir(const TCHAR* PathName)`: the UART output and the
FatFs calls, given the result `res` of `f_opendir` and the sequence `dir` of
results of the successive `f_readdir` calls. -/
def fatTest_ScanDir (PathName : String) (res : FRESULT) (dir : List (FRESULT × FILINFO)) :
    List Printf × List Call :=
  if res ≠ FRESULT.FR_OK then
    ([⟨"Failed to open directory: %s\r\n", [PArg.str PathName]⟩],
     [Call.f_opendir, Call.f_closedir])
  else
    let st := fatTest_ScanDir_loop dir
      ([⟨"All entries in dir %s\r\n", [PArg.str PathName]⟩,
        ⟨"--------------------------------\r\n", []⟩],
       [Call.f_opendir])
    (st.1 ++ [⟨"--------------------------------\r\n", []⟩, ⟨"Scan dir OK\r\n", []⟩],
     st.2 ++ [Call.f_closedir])

/-- An `f_readdir` result that is listed: no error and a name. -/
def listed (r : FRESULT × FILINFO) : Bool :=
  decide (r.1 = FRESULT.FR_OK) && decide (r.2.fname ≠ "")

/-- The line an entry is listed with: `DIR` when bit 4 (`AM_DIR`) of the
attribute is set, `FILE` otherwise. -/
def entryLine (r : FRESULT × FILINFO) : Printf :=
  if r.2.fattrib.testBit 4 then ⟨"DIR   %s\r\n", [PArg.str r.2.fname]⟩
  else ⟨"FILE  %s\r\n", [PArg.str r.2.fname]⟩

/-- A directory holding the file `readme.txt` and the subdirectory `SubDir1`. -/
def dir_file_and_subdir : List (FRESULT × FILINFO) :=
  [(FRESULT.FR_OK, { fsize := 61, fdate := 0, ftime := 0, fattrib := 0x20, fname := "readme.txt" }),
   (FRESULT.FR_OK, { fsize := 0, fdate := 0, ftime := 0, fattrib := 0x10, fname := "SubDir1" })]

/-! ## `sd_card .c`: card information and erase

`SDCard_ShowInfo` and `SDCard_EraseBlocks` are the same text in
`02_F407_SD_Test` and `03_F407_SD_DMA`. -/

/-- The HAL card information structure (`uint32_t` fields). -/
structure HAL_SD_CardInfoTypeDef where
  CardType : Nat
  CardVersion : Nat
  Class : Nat
  RelCardAdd : Nat
  BlockNbr : Nat
  BlockSize : Nat
  LogBlockNbr : Nat
  LogBlockSize : Nat
  deriving DecidableEq, Repr

/-- The function `void SDCard_ShowInfo(void)`: the UART output, given the answer of
`HAL_SD_GetCardInfo(&hsd, &cardINfo)`. -/
def SDCard_ShowInfo (res : HAL_StatusTypeDef) (cardINfo : HAL_SD_CardInfoTypeDef) :
    List Printf :=
  if res ≠ HAL_StatusTypeDef.HAL_OK then
    [⟨"HAL_SD_GetCardInfo() error!\r\n", []⟩]
  else
    [⟨"*** HAL_SD_GetCardInfo() info ***\r\n", []⟩,
     ⟨"Card Type = %d\r\n", [PArg.num cardINfo.CardType]⟩,
     ⟨"Card Version = %d\r\n", [PArg.num cardINfo.CardVersion]⟩,
     ⟨"Relative Card Address = %d\r\n", [PArg.num cardINfo.RelCardAdd]⟩,
     ⟨"Block Count = %d\r\n", [PArg.num cardINfo.BlockNbr]⟩,
     ⟨"Block Size(Bytes) = %d\r\n", [PArg.num cardINfo.BlockSize]⟩,
     ⟨"Logic Block Count = %d\r\n", [PArg.num cardINfo.LogBlockNbr]⟩,
     ⟨"Logic Block Size = %d\r\n", [PArg.num cardINfo.LogBlockSize]⟩,
     ⟨"SD Card Capacity(MB) = %d\r\n",
       [PArg.num (to_u32 (cardINfo.BlockNbr / 1024 * cardINfo.BlockSize) / 1024)]⟩]

/-- An 8 GB SDHC card: 15523840 blocks of 512 bytes. -/
def card_8GB : HAL_SD_CardInfoTypeDef :=
  { CardType := 1, CardVersion := 1, Class := 1461, RelCardAdd := 43690,
    BlockNbr := 15523840, BlockSize := 512, LogBlockNbr := 15523840, LogBlockSize := 512 }

/-- Modelled from the spec: the card state `Transfer` ("ready") of the HAL
header, which is not among the sources; the HAL numbers it 4. -/
def HAL_SD_CARD_TRANSFER : Nat := 4

/-- The poll loop of `SDCard_EraseBlocks`:
`while (cardState != HAL_SD_CARD_TRANSFER) { HAL_Delay(1); cardState = HAL_SD_GetCardState(&hsd); }`
`states n` is what the `n`-th `HAL_SD_GetCardState` call answers (counted
from 0) and `n` the number of calls made so far.  Every evaluation of the loop
condition takes one unit of fuel; `none` means the fuel ran out. -/
def SDCard_EraseBlocks_loop (states : Nat → Nat) :
    Nat → Nat → Nat → List Call → Option (Nat × List Call)
  | 0, _, _, _ => none
  | fuel + 1, n, cardState, log =>
    if cardState ≠ HAL_SD_CARD_TRANSFER then
      SDCard_EraseBlocks_loop states fuel (n + 1) (states n)
        (log ++ [Call.HAL_Delay 1, Call.HAL_SD_GetCardState])
    else
      some (cardState, log)

/-- What `SDCard_EraseBlocks` leaves behind: the last card state observed, the
UART output and the HAL calls in order. -/
structure EraseResult where
  cardState : Nat
  out : List Printf
  log : List Call
  deriving DecidableEq, Repr

/-- The function `void SDCard_EraseBlocks(void)`, given the status `res` of `HAL_SD_Erase`
and the sequence of card states; `none` means the fuel ran out in the poll
loop. -/
def SDCard_EraseBlocks (fuel : Nat) (res : HAL_StatusTypeDef) (states : Nat → Nat) :
    Option EraseResult :=
  let BlockStartAdd := 0
  let BlockEndAdd := 10
  let out : List Printf :=
    [⟨"*** Erasing blocks ***\r\n", []⟩,
     if res = HAL_StatusTypeDef.HAL_OK then ⟨"Erase blocks success\r\n", []⟩
     else ⟨"Erase blocks error\r\n", []⟩]
  let cardState := states 0
  let out := out ++ [⟨"GetCardState() = %d\r\n", [PArg.num cardState]⟩]
  match SDCard_EraseBlocks_loop states fuel 1 cardState
      [Call.HAL_SD_Erase BlockStartAdd BlockEndAdd, Call.HAL_SD_GetCardState] with
  | none => none
  | some st =>
    some { cardState := st.1
           out := out ++ [⟨"GetCardState() = %d\r\n", [PArg.num st.1]⟩,
                          ⟨"Blocks 0-10 is erased.\r\n", []⟩]
           log := st.2 }

/-- A card that is programming (state 7) for three polls and then ready. -/
def states_ready_at_3 (n : Nat) : Nat := if n < 3 then 7 else HAL_SD_CARD_TRANSFER

/-! ## `file_opera.c`: text files -/

/-- Modelled from the spec: the decimal digits a `%d` conversion of FatFs's
`f_printf` produces for a non-negative argument, as character codes. -/
def decimal (n : Nat) : List Nat :=
  if n = 0 then [48] else (Nat.digits 10 n).reverse.map (fun d => 48 + d)

/-- Modelled from the spec: the conversion `%0wd`, the decimal digits padded
with zeros on the left to at least `w` characters. -/
def fmt_0d (w n : Nat) : List Nat :=
  List.replicate (w - (decimal n).length) 48 ++ decimal n

/-- Modelled from the spec: the characters `f_printf` produces from a format
string and integer arguments.  Only `%0wd` with a one-digit width `w` is
interpreted, which is all that `fatTest_WriteTXTFile` uses; every other
character is copied. -/
def f_printf_chars : List Char → List Nat → List Nat
  | '%' :: '0' :: w :: 'd' :: fmt, a :: args =>
    fmt_0d (w.toNat - 48) a ++ f_printf_chars fmt args
  | c :: fmt, args => c.toNat :: f_printf_chars fmt args
  | [], _ => []

/-- Modelled from the spec: `f_printf(fp, fmt, ...)` of FatFs writes the
formatted characters at the pointer. -/
def f_printf (fp : FIL) (fmt : String) (args : List Nat) : FIL :=
  f_write fp (f_printf_chars fmt.toList args)

/-- The function `void fatTest_WriteTXTFile(TCHAR* filename, uint16_t year, uint8_t month,
uint8_t day)`, given the result `res` of
`f_open(&file, filename, FA_CREATE_ALWAYS | FA_WRITE)`, which on success yields
an empty file. -/
def fatTest_WriteTXTFile (res : FRESULT) (filename : String) (year month day : Nat) :
    WriteResult :=
  let file : FIL := { done := [], rest := [] }
  let log := [Call.f_open]
  if res = FRESULT.FR_OK then
    let file := f_puts "Line1: Hello FatFS\n" file
    let file := f_puts "Line2: UPC, Qingdao\n" file
    let file := f_printf file "Line3: Date=%04d-%02d-%02d\n" [year, month, day]
    { file := file
      out := [⟨"Successfully wrote to TXT file: %s\r\n", [PArg.str filename]⟩]
      log := log ++ [Call.f_puts, Call.f_puts, Call.f_printf] ++ [Call.f_close] }
  else
    { file := file
      out := [⟨"Error: Failed to write TXT file: %s\r\n", [PArg.str filename]⟩]
      log := log ++ [Call.f_close] }

/-- Modelled from the spec: the macro `f_eof(fp)` of FatFs, true when the
pointer is at the end of the file. -/
def f_eof (fp : FIL) : Bool := fp.rest.isEmpty

/-- What `fatTest_ReadTXTFile` leaves behind: the lines `f_gets` delivered, the
UART output and the FatFs calls in order. -/
structure ReadTXTResult where
  lines : List (List Nat)
  out : List Printf
  log : List Call
  deriving DecidableEq, Repr

/-- The line loop of `fatTest_ReadTXTFile`:
`while (!f_eof(&file)) { f_gets(line, sizeof(line), &file); printf("%s", line); }`
Every evaluation of the loop condition takes one unit of fuel; `none` means the
fuel ran out. -/
def fatTest_ReadTXTFile_loop : Nat → FIL × ReadTXTResult → Option (FIL × ReadTXTResult)
  | 0, _ => none
  | fuel + 1, st =>
    if ¬ f_eof st.1 then
      let g := f_gets 40 st.1
      fatTest_ReadTXTFile_loop fuel
        (g.2, { lines := st.2.lines ++ [g.1]
                out := st.2.out ++ [⟨"%s", [PArg.str (cstr g.1)]⟩]
                log := st.2.log ++ [Call.f_gets] })
    else
      some st

/-- The function `void fatTest_ReadTXTFile(TCHAR* filename)`, given the result
`res` of `f_open(&file, filename, FA_READ)` and the bytes `data` of the file. -/
def fatTest_ReadTXTFile (fuel : Nat) (filename : String) (res : FRESULT) (data : List Nat) :
    Option ReadTXTResult :=
  let out := [(⟨"Reading TXT file: %s\r\n", [PArg.str filename]⟩ : Printf),
              ⟨"--------------------------------\r\n", []⟩]
  let log := [Call.f_open]
  if res = FRESULT.FR_OK then
    match fatTest_ReadTXTFile_loop fuel
        ({ done := [], rest := data }, { lines := [], out := out, log := log }) with
    | none => none
    | some st =>
      some { lines := st.2.lines
             out := st.2.out ++
               [⟨"--------------------------------\r\n", []⟩,
                ⟨"TXT file read completed\r\n", []⟩]
             log := st.2.log ++ [Call.f_close] }
  else if res = FRESULT.FR_NO_FILE then
    some { lines := []
           out := out ++ [⟨"Error: File %s does not exist\r\n", [PArg.str filename]⟩]
           log := log ++ [Call.f_close] }
  else
    some { lines := []
           out := out ++ [⟨"Error: Failed to open file %s\r\n", [PArg.str filename]⟩]
           log := log ++ [Call.f_close] }

/-- The character codes of a string literal. -/
def bytes (s : String) : List Nat := s.toList.map Char.toNat

/-- The date line for a year of at most four digits and a month and a day of
at most two: `Line3: Date=YYYY-MM-DD` and a line feed. -/
def dateLine (year month day : Nat) : List Nat :=
  bytes "Line3: Date=" ++
    [48 + year / 1000, 48 + year / 100 % 10, 48 + year / 10 % 10, 48 + year % 10, 45,
     48 + month / 10, 48 + month % 10, 45, 48 + day / 10, 48 + day % 10, 10]

/-- The date line as `f_printf` formats it for any arguments:
`Line3: Date=`, the three `%0wd` conversions separated by `-`, and a line
feed. -/
def dateLineFmt (year month day : Nat) : List Nat :=
  bytes "Line3: Date=" ++ fmt_0d 4 year ++ [45] ++ fmt_0d 2 month ++ [45] ++
    fmt_0d 2 day ++ [10]

/-- A standard-capacity card with 2048-byte blocks: 3751 * 512 = 1920512
blocks, 3751 MiB. -/
def card_2048_byte_blocks : HAL_SD_CardInfoTypeDef :=
  { CardType := 0, CardVersion := 1, Class := 1461, RelCardAdd := 43690,
    BlockNbr := 1920512, BlockSize := 2048, LogBlockNbr := 7682048, LogBlockSize := 512 }

/-- An RTC whose time read succeeds and whose date read fails; `sDate` holds
what the failed call left in it. -/
def rtc_date_fault : RTC_HandleTypeDef :=
  { rtc_2024_03_15 with dateStatus := HAL_StatusTypeDef.HAL_ERROR }

/-- An RTC reading with year 0 and a month register of 16. -/
def rtc_month_16 : RTC_HandleTypeDef :=
  { timeStatus := HAL_StatusTypeDef.HAL_OK
    sTime := { Hours := 0, Minutes := 0, Seconds := 0 }
    dateStatus := HAL_StatusTypeDef.HAL_OK
    sDate := { WeekDay := 1, Month := 16, Date := 1, Year := 0 } }

/-- What reading `ADC500.dat` (20 samples at 500 Hz) leaves behind. -/
def adc500_readback : ReadBinResult :=
  { read := some { header := [65, 68, 67, 49, 45, 73, 78, 53, 10]
                   pointCount := 20
                   sampFreq := 500
                   values := some [1000, 1001, 1002, 1003, 1004, 1005, 1006, 1007, 1008, 1009,
                     1010, 1011, 1012, 1013, 1014, 1015, 1016, 1017, 1018, 1019] }
    out :=
      [⟨"Reading BIN file: %s\r\n", [PArg.str "ADC500.dat"]⟩,
       ⟨"--------------------------------\r\n", []⟩,
       ⟨"Header: %s", [PArg.str "ADC1-IN5\n"]⟩,
       ⟨"Point count: %d\r\n", [PArg.num 20]⟩,
       ⟨"Sampling frequency: %d\r\n", [PArg.num 500]⟩,
       ⟨"Sample values:\r\n", []⟩,
       ⟨"  value[5] = %d\r\n", [PArg.num 1005]⟩,
       ⟨"  value[16] = %d\r\n", [PArg.num 1016]⟩,
       ⟨"--------------------------------\r\n", []⟩,
       ⟨"BIN file read completed\r\n", []⟩]
    log := [Call.f_open, Call.f_gets, Call.f_read, Call.f_read]
      ++ List.replicate 20 Call.f_read ++ [Call.f_close] }

/-! ## Theorems -/

/-! ### Bit-level facts used by the timestamp proofs -/

theorem shiftLeft_or_eq_add (a b k : Nat) (h : b < 2 ^ k) :
    a <<< k ||| b = a * 2 ^ k + b := by
  rw [Nat.shiftLeft_eq, Nat.mul_comm, ← Nat.mul_add_lt_is_or h]

theorem and_shiftRight_distrib (x m k : Nat) :
    (x &&& m) >>> k = (x >>> k) &&& (m >>> k) := by
  apply Nat.eq_of_testBit_eq
  intro i
  simp [Nat.testBit_shiftRight, Nat.testBit_and]

theorem fatDateExpr_eq (d : RTC_DateTypeDef) (hM : d.Month < 16) (hD : d.Date < 32) :
    fatDateExpr d = (d.Year + 20) * 512 + d.Month * 32 + d.Date := by
  unfold fatDateExpr
  have h1 : (2000 + d.Year - 1980) <<< 9 ||| d.Month <<< 5
      = ((2000 + d.Year - 1980) * 16 + d.Month) <<< 5 := by
    rw [Nat.shiftLeft_eq d.Month, shiftLeft_or_eq_add _ _ 9 (by omega), Nat.shiftLeft_eq]
    omega
  rw [h1, shiftLeft_or_eq_add _ _ 5 (by omega)]
  omega

theorem fatTimeExpr_eq (t : RTC_TimeTypeDef) (hM : t.Minutes < 64) (hS : t.Seconds < 64) :
    fatTimeExpr t = t.Hours * 2048 + t.Minutes * 32 + t.Seconds / 2 := by
  unfold fatTimeExpr
  have h1 : t.Hours <<< 11 ||| t.Minutes <<< 5 = (t.Hours * 64 + t.Minutes) <<< 5 := by
    rw [Nat.shiftLeft_eq t.Minutes, shiftLeft_or_eq_add _ _ 11 (by omega), Nat.shiftLeft_eq]
    omega
  rw [h1, Nat.shiftRight_eq_div_pow, shiftLeft_or_eq_add _ _ 5 (by omega)]
  omega

theorem fat_GetFatTimeFromRTC_value (hrtc : RTC_HandleTypeDef)
    (hok : hrtc.timeStatus = HAL_StatusTypeDef.HAL_OK) :
    (fat_GetFatTimeFromRTC hrtc).1
      = fatDateExpr hrtc.sDate % 65536 * 65536 + fatTimeExpr hrtc.sTime % 65536 := by
  simp only [fat_GetFatTimeFromRTC, HAL_RTC_GetTime, HAL_RTC_GetDate, hok, if_true, to_u16,
    to_u32]
  have hd : fatDateExpr hrtc.sDate % 65536 < 65536 := Nat.mod_lt _ (by decide)
  have ht : fatTimeExpr hrtc.sTime % 65536 < 2 ^ 16 := Nat.mod_lt _ (by decide)
  have h2 : (fatDateExpr hrtc.sDate % 65536) <<< 16 % 4294967296
      = (fatDateExpr hrtc.sDate % 65536) <<< 16 := by
    rw [Nat.shiftLeft_eq]
    omega
  rw [h2, shiftLeft_or_eq_add _ _ 16 ht]
  norm_num

/-! ### Mask-and-shift decoding -/

theorem and_mask_shiftRight (x m k w : Nat) (hm : m >>> k = 2 ^ w - 1) :
    (x &&& m) >>> k = x / 2 ^ k % 2 ^ w := by
  rw [and_shiftRight_distrib, hm, Nat.and_pow_two_sub_one_eq_mod, Nat.shiftRight_eq_div_pow]

/-! ### C1: the packed timestamp -/

/-- C1: for every RTC reading in the binary ranges (Year 0..99, Month 1..12,
Date 1..31, Hours 0..23, Minutes 0..59, Seconds 0..59) whose time read succeeds,
`fat_GetFatTimeFromRTC` returns a 32-bit value whose high 16 bits are
`((Year + 20) << 9) | (Month << 5) | Date` and whose low 16 bits are
`(Hours << 11) | (Minutes << 5) | (Seconds / 2)`; both halves are below `2 ^ 16`
before they are narrowed, so the narrowing to `WORD` loses no bit. -/
theorem fat_GetFatTimeFromRTC_packed (hrtc : RTC_HandleTypeDef)
    (hok : hrtc.timeStatus = HAL_StatusTypeDef.HAL_OK)
    (hY : hrtc.sDate.Year ≤ 99)
    (hMo : 1 ≤ hrtc.sDate.Month ∧ hrtc.sDate.Month ≤ 12)
    (hD : 1 ≤ hrtc.sDate.Date ∧ hrtc.sDate.Date ≤ 31)
    (hH : hrtc.sTime.Hours ≤ 23) (hMi : hrtc.sTime.Minutes ≤ 59)
    (hS : hrtc.sTime.Seconds ≤ 59) :
    (fat_GetFatTimeFromRTC hrtc).1 < 2 ^ 32 ∧
    (fat_GetFatTimeFromRTC hrtc).1 / 2 ^ 16
      = (((hrtc.sDate.Year + 20) <<< 9) ||| (hrtc.sDate.Month <<< 5) ||| hrtc.sDate.Date) ∧
    (fat_GetFatTimeFromRTC hrtc).1 % 2 ^ 16
      = ((hrtc.sTime.Hours <<< 11) ||| (hrtc.sTime.Minutes <<< 5)
          ||| (hrtc.sTime.Seconds / 2)) ∧
    (((hrtc.sDate.Year + 20) <<< 9) ||| (hrtc.sDate.Month <<< 5) ||| hrtc.sDate.Date)
      < 2 ^ 16 ∧
    ((hrtc.sTime.Hours <<< 11) ||| (hrtc.sTime.Minutes <<< 5) ||| (hrtc.sTime.Seconds / 2))
      < 2 ^ 16 := by
  have hd := fatDateExpr_eq hrtc.sDate (by omega) (by omega)
  have ht := fatTimeExpr_eq hrtc.sTime (by omega) (by omega)
  have hd2 : (((hrtc.sDate.Year + 20) <<< 9) ||| (hrtc.sDate.Month <<< 5) ||| hrtc.sDate.Date)
      = fatDateExpr hrtc.sDate := by
    unfold fatDateExpr
    have : 2000 + hrtc.sDate.Year - 1980 = hrtc.sDate.Year + 20 := by omega
    rw [this]
  have ht2 : ((hrtc.sTime.Hours <<< 11) ||| (hrtc.sTime.Minutes <<< 5)
      ||| (hrtc.sTime.Seconds / 2)) = fatTimeExpr hrtc.sTime := by
    unfold fatTimeExpr
    rw [Nat.shiftRight_eq_div_pow]
  rw [hd2, ht2, fat_GetFatTimeFromRTC_value hrtc hok, hd, ht]
  refine ⟨?_, ?_, ?_, ?_, ?_⟩ <;> omega

/-- C1 at the reading 2024-03-15 10:30:20. -/
theorem fat_GetFatTimeFromRTC_packed_witness :
    (fat_GetFatTimeFromRTC rtc_2024_03_15).1 < 2 ^ 32 ∧
    (fat_GetFatTimeFromRTC rtc_2024_03_15).1 / 2 ^ 16 = ((44 <<< 9) ||| (3 <<< 5) ||| 15) ∧
    (fat_GetFatTimeFromRTC rtc_2024_03_15).1 % 2 ^ 16 = ((10 <<< 11) ||| (30 <<< 5) ||| 10) ∧
    ((44 <<< 9) ||| (3 <<< 5) ||| 15) < 2 ^ 16 ∧
    ((10 <<< 11) ||| (30 <<< 5) ||| 10) < 2 ^ 16 :=
  fat_GetFatTimeFromRTC_packed rtc_2024_03_15 rfl (by decide) (by decide) (by decide)
    (by decide) (by decide) (by decide)

/-! ### C2: decoding undoes packing -/

theorem fatTest_GetFileInfo_fields (filename : String) (file_info : FILINFO) :
    fatTest_GetFileInfo filename FRESULT.FR_OK file_info =
      [⟨"File info of: %s\r\n", [PArg.str filename]⟩,
       ⟨"--------------------------------\r\n", []⟩,
       ⟨"File size(bytes) = %d\r\n", [PArg.num file_info.fsize]⟩,
       ⟨"File attribute = 0x%X\r\n", [PArg.num file_info.fattrib]⟩,
       ⟨"File name = %s\r\n", [PArg.str file_info.fname]⟩,
       ⟨"File Date = %04d-%02d-%02d\r\n",
         [PArg.num ((1980 + file_info.fdate / 512 % 128) % 65536),
          PArg.num (file_info.fdate / 32 % 16 % 65536),
          PArg.num (file_info.fdate % 32 % 65536)]⟩,
       ⟨"File Time = %02d:%02d:%02d\r\n",
         [PArg.num (file_info.ftime / 2048 % 32 % 65536),
          PArg.num (file_info.ftime / 32 % 64 % 65536),
          PArg.num (file_info.ftime % 32 * 2 % 65536)]⟩,
       ⟨"--------------------------------\r\n", []⟩,
       ⟨"File info retrieved successfully\r\n", []⟩] := by
  have e1 : file_info.fdate &&& 0x001F = file_info.fdate % 32 :=
    Nat.and_pow_two_sub_one_eq_mod _ 5
  have e2 : (file_info.fdate &&& 0x01E0) >>> 5 = file_info.fdate / 32 % 16 :=
    and_mask_shiftRight _ _ 5 4 (by decide)
  have e3 : (file_info.fdate &&& 0xFE00) >>> 9 = file_info.fdate / 512 % 128 :=
    and_mask_shiftRight _ _ 9 7 (by decide)
  have e4 : (file_info.ftime &&& 0xF800) >>> 11 = file_info.ftime / 2048 % 32 :=
    and_mask_shiftRight _ _ 11 5 (by decide)
  have e5 : (file_info.ftime &&& 0x07E0) >>> 5 = file_info.ftime / 32 % 64 :=
    and_mask_shiftRight _ _ 5 6 (by decide)
  have e6 : (file_info.ftime &&& 0x001F) <<< 1 = file_info.ftime % 32 * 2 := by
    rw [Nat.shiftLeft_eq]
    exact congrArg (· * 2 ^ 1) (Nat.and_pow_two_sub_one_eq_mod _ 5)
  simp only [fatTest_GetFileInfo, if_true, to_u16, e1, e2, e3, e4, e5, e6]
  rfl

/-- C2: for every RTC reading in range, the date and time that
`fatTest_GetFileInfo` extracts from the high half (as `fdate`) and the low half
(as `ftime`) of the value packed by `fat_GetFatTimeFromRTC` are
year = 2000 + Year, month = Month, day = Date, hours = Hours, minutes = Minutes
and seconds = Seconds rounded down to an even number. -/
theorem fatTest_GetFileInfo_decodes_packed (hrtc : RTC_HandleTypeDef)
    (filename fname : String) (fsize fattrib : Nat)
    (hok : hrtc.timeStatus = HAL_StatusTypeDef.HAL_OK)
    (hY : hrtc.sDate.Year ≤ 99)
    (hMo : 1 ≤ hrtc.sDate.Month ∧ hrtc.sDate.Month ≤ 12)
    (hD : 1 ≤ hrtc.sDate.Date ∧ hrtc.sDate.Date ≤ 31)
    (hH : hrtc.sTime.Hours ≤ 23) (hMi : hrtc.sTime.Minutes ≤ 59)
    (hS : hrtc.sTime.Seconds ≤ 59) :
    fatTest_GetFileInfo filename FRESULT.FR_OK
        { fsize := fsize
          fdate := (fat_GetFatTimeFromRTC hrtc).1 / 2 ^ 16
          ftime := (fat_GetFatTimeFromRTC hrtc).1 % 2 ^ 16
          fattrib := fattrib
          fname := fname } =
      [⟨"File info of: %s\r\n", [PArg.str filename]⟩,
       ⟨"--------------------------------\r\n", []⟩,
       ⟨"File size(bytes) = %d\r\n", [PArg.num fsize]⟩,
       ⟨"File attribute = 0x%X\r\n", [PArg.num fattrib]⟩,
       ⟨"File name = %s\r\n", [PArg.str fname]⟩,
       ⟨"File Date = %04d-%02d-%02d\r\n",
         [PArg.num (2000 + hrtc.sDate.Year), PArg.num hrtc.sDate.Month,
          PArg.num hrtc.sDate.Date]⟩,
       ⟨"File Time = %02d:%02d:%02d\r\n",
         [PArg.num hrtc.sTime.Hours, PArg.num hrtc.sTime.Minutes,
          PArg.num (hrtc.sTime.Seconds / 2 * 2)]⟩,
       ⟨"--------------------------------\r\n", []⟩,
       ⟨"File info retrieved successfully\r\n", []⟩] := by
  have hd := fatDateExpr_eq hrtc.sDate (by omega) (by omega)
  have ht := fatTimeExpr_eq hrtc.sTime (by omega) (by omega)
  have hv := fat_GetFatTimeFromRTC_value hrtc hok
  rw [hd, ht] at hv
  have hfd : (fat_GetFatTimeFromRTC hrtc).1 / 2 ^ 16
      = (hrtc.sDate.Year + 20) * 512 + hrtc.sDate.Month * 32 + hrtc.sDate.Date := by
    rw [hv]; omega
  have hft : (fat_GetFatTimeFromRTC hrtc).1 % 2 ^ 16
      = hrtc.sTime.Hours * 2048 + hrtc.sTime.Minutes * 32 + hrtc.sTime.Seconds / 2 := by
    rw [hv]; omega
  rw [fatTest_GetFileInfo_fields, hfd, hft]
  have a1 : (1980 + ((hrtc.sDate.Year + 20) * 512 + hrtc.sDate.Month * 32 + hrtc.sDate.Date)
      / 512 % 128) % 65536 = 2000 + hrtc.sDate.Year := by omega
  have a2 : ((hrtc.sDate.Year + 20) * 512 + hrtc.sDate.Month * 32 + hrtc.sDate.Date)
      / 32 % 16 % 65536 = hrtc.sDate.Month := by omega
  have a3 : ((hrtc.sDate.Year + 20) * 512 + hrtc.sDate.Month * 32 + hrtc.sDate.Date)
      % 32 % 65536 = hrtc.sDate.Date := by omega
  have b1 : (hrtc.sTime.Hours * 2048 + hrtc.sTime.Minutes * 32 + hrtc.sTime.Seconds / 2)
      / 2048 % 32 % 65536 = hrtc.sTime.Hours := by omega
  have b2 : (hrtc.sTime.Hours * 2048 + hrtc.sTime.Minutes * 32 + hrtc.sTime.Seconds / 2)
      / 32 % 64 % 65536 = hrtc.sTime.Minutes := by omega
  have b3 : (hrtc.sTime.Hours * 2048 + hrtc.sTime.Minutes * 32 + hrtc.sTime.Seconds / 2)
      % 32 * 2 % 65536 = hrtc.sTime.Seconds / 2 * 2 := by omega
  simp only [a1, a2, a3, b1, b2, b3]

/-- C2 at the reading 2024-03-15 10:30:20: the packed value carries year offset
44, month 3, day 15, hour 10, minute 30 and second / 2 = 10 in disjoint fields,
and decodes to 2024-03-15 10:30:20. -/
theorem fatTest_GetFileInfo_decodes_packed_witness :
    (fat_GetFatTimeFromRTC rtc_2024_03_15).1
      = (44 * 2 ^ 9 + 3 * 2 ^ 5 + 15) * 2 ^ 16 + (10 * 2 ^ 11 + 30 * 2 ^ 5 + 10) ∧
    fatTest_GetFileInfo "ADC1000.dat" FRESULT.FR_OK
        { fsize := 217
          fdate := (fat_GetFatTimeFromRTC rtc_2024_03_15).1 / 2 ^ 16
          ftime := (fat_GetFatTimeFromRTC rtc_2024_03_15).1 % 2 ^ 16
          fattrib := 32
          fname := "ADC1000.dat" } =
      [⟨"File info of: %s\r\n", [PArg.str "ADC1000.dat"]⟩,
       ⟨"--------------------------------\r\n", []⟩,
       ⟨"File size(bytes) = %d\r\n", [PArg.num 217]⟩,
       ⟨"File attribute = 0x%X\r\n", [PArg.num 32]⟩,
       ⟨"File name = %s\r\n", [PArg.str "ADC1000.dat"]⟩,
       ⟨"File Date = %04d-%02d-%02d\r\n", [PArg.num 2024, PArg.num 3, PArg.num 15]⟩,
       ⟨"File Time = %02d:%02d:%02d\r\n", [PArg.num 10, PArg.num 30, PArg.num 20]⟩,
       ⟨"--------------------------------\r\n", []⟩,
       ⟨"File info retrieved successfully\r\n", []⟩] :=
  ⟨by decide,
   fatTest_GetFileInfo_decodes_packed rtc_2024_03_15 "ADC1000.dat" "ADC1000.dat" 217 32 rfl
     (by decide) (by decide) (by decide) (by decide) (by decide) (by decide)⟩

/-! ### C3: order of the RTC reads -/

/-- C3: if `HAL_RTC_GetTime` does not return `HAL_OK`, `fat_GetFatTimeFromRTC`
returns 0 and makes no `HAL_RTC_GetDate` call (its only call is the time read);
if it returns `HAL_OK`, the calls are the time read followed by the date read,
each exactly once. -/
theorem fat_GetFatTimeFromRTC_call_order (hrtc : RTC_HandleTypeDef) :
    (hrtc.timeStatus ≠ HAL_StatusTypeDef.HAL_OK →
      fat_GetFatTimeFromRTC hrtc = (0, [Call.HAL_RTC_GetTime])) ∧
    (hrtc.timeStatus = HAL_StatusTypeDef.HAL_OK →
      (fat_GetFatTimeFromRTC hrtc).2 = [Call.HAL_RTC_GetTime, Call.HAL_RTC_GetDate]) := by
  constructor
  · intro h
    simp [fat_GetFatTimeFromRTC, HAL_RTC_GetTime, h]
  · intro h
    simp [fat_GetFatTimeFromRTC, HAL_RTC_GetTime, HAL_RTC_GetDate, h]

/-- C3 at a timed-out time read and at a healthy RTC. -/
theorem fat_GetFatTimeFromRTC_call_order_witness :
    fat_GetFatTimeFromRTC rtc_time_fault = (0, [Call.HAL_RTC_GetTime]) ∧
    (fat_GetFatTimeFromRTC rtc_2024_03_15).2
      = [Call.HAL_RTC_GetTime, Call.HAL_RTC_GetDate] :=
  ⟨(fat_GetFatTimeFromRTC_call_order rtc_time_fault).1 (by decide),
   (fat_GetFatTimeFromRTC_call_order rtc_2024_03_15).2 rfl⟩

/-! ### Binary files: the sample loops -/

theorem to_u16_succ_of_lt (i : Nat) (h : i < 65535) : to_u16 (i + 1) = i + 1 := by
  unfold to_u16
  omega

theorem to_u16_lt (n : Nat) : to_u16 n < 65536 := by
  unfold to_u16
  omega

theorem store_u32_bytes_of_u32 (old v : Nat) (hv : v < 4294967296) :
    store_u32 old (bytes_of_u32 v) = v := by
  simp only [store_u32, bytes_of_u32, List.take, List.length_cons, List.length_nil,
    List.drop, List.append_nil, u32_of_bytes]
  omega

theorem f_read_bytes_of_u32 (done tail : List Nat) (v : Nat) :
    f_read { done := done, rest := bytes_of_u32 v ++ tail } 4
      = (bytes_of_u32 v, { done := done ++ bytes_of_u32 v, rest := tail }) := by
  simp [f_read, bytes_of_u32]

/-- With a count of at most 65535 the write loop exits after writing the
remaining samples, one `f_write` each. -/
theorem fatTest_WriteBinFile_loop_exits (N : Nat) (hN : N ≤ 65535) :
    ∀ (m i fuel : Nat) (fp : FIL) (log : List Call),
      i + m = N → m + 1 ≤ fuel → fp.rest = [] →
      fatTest_WriteBinFile_loop N fuel i (1000 + i) (fp, log)
        = some ({ done := fp.done ++ (List.range' i m).flatMap (fun j => bytes_of_u32 (1000 + j))
                  rest := [] },
                log ++ List.replicate m Call.f_write) := by
  intro m
  induction m with
  | zero =>
    intro i fuel fp log him hfuel hrest
    obtain ⟨fuel, rfl⟩ : ∃ k, fuel = k + 1 := ⟨fuel - 1, by omega⟩
    have hi : ¬ i < N := by omega
    cases fp
    simp_all [fatTest_WriteBinFile_loop]
  | succ m ih =>
    intro i fuel fp log him hfuel hrest
    obtain ⟨fuel, rfl⟩ : ∃ k, fuel = k + 1 := ⟨fuel - 1, by omega⟩
    have hi : i < N := by omega
    have h16 : to_u16 (i + 1) = i + 1 := to_u16_succ_of_lt i (by omega)
    have h32 : to_u32 (1000 + i + 1) = 1000 + (i + 1) := by
      unfold to_u32
      omega
    rw [fatTest_WriteBinFile_loop, if_pos hi, h16, h32,
      ih (i + 1) fuel _ _ (by omega) (by omega) (by simp [f_write, hrest])]
    simp [f_write, List.range'_succ, List.replicate_succ]

/-- With a count of 65536 or more the write loop never exits: the 16-bit
index stays below the count. -/
theorem fatTest_WriteBinFile_loop_diverges (N : Nat) (hN : 65536 ≤ N) :
    ∀ (fuel i value : Nat) (st : FIL × List Call), i < 65536 →
      fatTest_WriteBinFile_loop N fuel i value st = none := by
  intro fuel
  induction fuel with
  | zero =>
    intro i value st _
    rfl
  | succ fuel ih =>
    intro i value st hi
    have hlt : i < N := by omega
    rw [fatTest_WriteBinFile_loop, if_pos hlt]
    exact ih _ _ _ (to_u16_lt _)

/-- With a count of at most 65535 the read loop exits after storing the
remaining samples into `values`, one `f_read` each. -/
theorem fatTest_ReadBinFile_loop_exits (N : Nat) (hN : N ≤ 65535) :
    ∀ (m i fuel : Nat) (done tail pre junk : List Nat) (log : List Call),
      i + m = N → m + 1 ≤ fuel → pre.length = i → junk.length = m →
      fatTest_ReadBinFile_loop N fuel i
          ({ done := done
             rest := (List.range' i m).flatMap (fun j => bytes_of_u32 (1000 + j)) ++ tail },
           pre ++ junk, log)
        = some ({ done := done ++ (List.range' i m).flatMap (fun j => bytes_of_u32 (1000 + j))
                  rest := tail },
                pre ++ (List.range' i m).map (fun j => 1000 + j),
                log ++ List.replicate m Call.f_read) := by
  intro m
  induction m with
  | zero =>
    intro i fuel done tail pre junk log him hfuel hpre hjunk
    obtain ⟨fuel, rfl⟩ : ∃ k, fuel = k + 1 := ⟨fuel - 1, by omega⟩
    have hi : ¬ i < N := by omega
    have hj : junk = [] := List.length_eq_zero.mp hjunk
    simp [fatTest_ReadBinFile_loop, hi, hj]
  | succ m ih =>
    intro i fuel done tail pre junk log him hfuel hpre hjunk
    obtain ⟨fuel, rfl⟩ : ∃ k, fuel = k + 1 := ⟨fuel - 1, by omega⟩
    have hi : i < N := by omega
    have h16 : to_u16 (i + 1) = i + 1 := to_u16_succ_of_lt i (by omega)
    obtain ⟨x, junk, rfl⟩ : ∃ x l, junk = x :: l := by
      cases junk with
      | nil => simp at hjunk
      | cons x l => exact ⟨x, l, rfl⟩
    have hset : (pre ++ x :: junk).set i (store_u32 ((pre ++ x :: junk).getD i 0)
        (bytes_of_u32 (1000 + i))) = (pre ++ [1000 + i]) ++ junk := by
      rw [store_u32_bytes_of_u32 _ _ (by omega), List.set_append]
      simp [hpre]
    rw [fatTest_ReadBinFile_loop, if_pos hi, h16]
    simp only [List.range'_succ, List.flatMap_cons, List.append_assoc]
    rw [f_read_bytes_of_u32]
    simp only []
    rw [hset, ih (i + 1) fuel _ tail (pre ++ [1000 + i]) junk _ (by omega) (by omega)
      (by simp [hpre]) (by simpa using hjunk)]
    simp [List.replicate_succ]

/-! ### Binary files: the whole functions on counts up to 65535 -/

theorem identifier_line_bytes :
    "ADC1-IN5\n".toList.map Char.toNat = [65, 68, 67, 49, 45, 73, 78, 53, 10] := by
  decide

/-- For a count of at most 65535 and an opened file, `fatTest_WriteBinFile`
returns, having written exactly `binFileBytes`. -/
theorem fatTest_WriteBinFile_returns (fuel : Nat) (filename : String) (N f : Nat)
    (hN : N ≤ 65535) (hfuel : N + 1 ≤ fuel) :
    fatTest_WriteBinFile fuel FRESULT.FR_OK filename N f
      = some { file := { done := binFileBytes N f, rest := [] }
               out := [⟨"Successfully wrote to BIN file: %s\r\n", [PArg.str filename]⟩]
               log := [Call.f_open, Call.f_puts, Call.f_write, Call.f_write]
                 ++ List.replicate N Call.f_write ++ [Call.f_close] } := by
  have h := fatTest_WriteBinFile_loop_exits N hN N 0 fuel
    (f_write (f_write (f_puts "ADC1-IN5\n" { done := [], rest := [] }) (bytes_of_u32 N))
      (bytes_of_u32 f))
    ([Call.f_open] ++ [Call.f_puts, Call.f_write, Call.f_write])
    (by omega) hfuel (by simp [f_write, f_puts])
  simp only [fatTest_WriteBinFile, if_true]
  rw [show (1000 : Nat) = 1000 + 0 from rfl, h]
  simp [f_write, f_puts, identifier_line_bytes, binFileBytes, List.range_eq_range']

/-- For a count of at most 65535, a frequency of 32 bits and a successful
`malloc`, reading back the file just written returns the identifier line, the
count, the frequency and the samples 1000, 1001, ... -/
theorem binRoundTrip_returns (fuel : Nat) (filename : String) (N f : Nat) (env : ReadBinEnv)
    (hN : N ≤ 65535) (hf : f < 4294967296) (hres : env.res = FRESULT.FR_OK)
    (hmalloc : env.mallocOk (4 * N) = true) (hfuel : N + 1 ≤ fuel) :
    binRoundTrip fuel filename N f env
      = some { read := some { header := [65, 68, 67, 49, 45, 73, 78, 53, 10]
                              pointCount := N
                              sampFreq := f
                              values := some ((List.range N).map (fun i => 1000 + i)) }
               out :=
                 [⟨"Reading BIN file: %s\r\n", [PArg.str filename]⟩,
                  ⟨"--------------------------------\r\n", []⟩,
                  ⟨"Header: %s", [PArg.str "ADC1-IN5\n"]⟩,
                  ⟨"Point count: %d\r\n", [PArg.num N]⟩,
                  ⟨"Sampling frequency: %d\r\n", [PArg.num f]⟩,
                  ⟨"Sample values:\r\n", []⟩,
                  ⟨"  value[5] = %d\r\n",
                    [wordArg ((List.range N).map (fun i => 1000 + i)) 5]⟩,
                  ⟨"  value[16] = %d\r\n",
                    [wordArg ((List.range N).map (fun i => 1000 + i)) 16]⟩,
                  ⟨"--------------------------------\r\n", []⟩,
                  ⟨"BIN file read completed\r\n", []⟩]
               log := [Call.f_open, Call.f_gets, Call.f_read, Call.f_read]
                 ++ List.replicate N Call.f_read ++ [Call.f_close] } := by
  have hgets : f_gets 40 { done := [], rest := binFileBytes N f }
      = ([65, 68, 67, 49, 45, 73, 78, 53, 10],
         { done := [65, 68, 67, 49, 45, 73, 78, 53, 10]
           rest := bytes_of_u32 N ++ (bytes_of_u32 f ++
             ((List.range' 0 N).flatMap (fun j => bytes_of_u32 (1000 + j)) ++ [])) }) := by
    simp [f_gets, f_gets_chars, binFileBytes, List.range_eq_range']
  have hcstr : cstr [65, 68, 67, 49, 45, 73, 78, 53, 10] = "ADC1-IN5\n" := by decide
  have hsize : to_u32 (N * 4) = 4 * N := by
    unfold to_u32
    omega
  have h4 : 4 * N / 4 = N := Nat.mul_div_cancel_left N (by decide : 0 < 4)
  have hloop := fatTest_ReadBinFile_loop_exits N hN N 0 fuel
    ([65, 68, 67, 49, 45, 73, 78, 53, 10] ++ bytes_of_u32 N ++ bytes_of_u32 f) []
    [] ((List.range N).map env.block0)
    ([Call.f_open] ++ [Call.f_gets, Call.f_read, Call.f_read])
    (by omega) hfuel rfl (by simp)
  simp only [binRoundTrip, fatTest_WriteBinFile_returns fuel filename N f hN hfuel, FIL.data,
    List.append_nil, fatTest_ReadBinFile, hres, if_true, hgets, f_read_bytes_of_u32,
    store_u32_bytes_of_u32 _ N (by omega), store_u32_bytes_of_u32 _ f hf, hsize, hmalloc,
    hcstr, h4]
  simp only [List.range_eq_range', List.nil_append, List.append_nil, List.cons_append,
    List.map_map] at hloop ⊢
  rw [hloop]
  simp

/-- Reading `ADC500.dat` back after `main` has written it with 20 samples. -/
theorem binRoundTrip_ADC500 :
    binRoundTrip 21 "ADC500.dat" 20 500 (readEnv [])
      = some { read := some { header := [65, 68, 67, 49, 45, 73, 78, 53, 10]
                              pointCount := 20
                              sampFreq := 500
                              values := some [1000, 1001, 1002, 1003, 1004, 1005, 1006, 1007,
                                1008, 1009, 1010, 1011, 1012, 1013, 1014, 1015, 1016, 1017,
                                1018, 1019] }
               out :=
                 [⟨"Reading BIN file: %s\r\n", [PArg.str "ADC500.dat"]⟩,
                  ⟨"--------------------------------\r\n", []⟩,
                  ⟨"Header: %s", [PArg.str "ADC1-IN5\n"]⟩,
                  ⟨"Point count: %d\r\n", [PArg.num 20]⟩,
                  ⟨"Sampling frequency: %d\r\n", [PArg.num 500]⟩,
                  ⟨"Sample values:\r\n", []⟩,
                  ⟨"  value[5] = %d\r\n", [PArg.num 1005]⟩,
                  ⟨"  value[16] = %d\r\n", [PArg.num 1016]⟩,
                  ⟨"--------------------------------\r\n", []⟩,
                  ⟨"BIN file read completed\r\n", []⟩]
               log := [Call.f_open, Call.f_gets, Call.f_read, Call.f_read]
                 ++ List.replicate 20 Call.f_read ++ [Call.f_close] } :=
  (binRoundTrip_returns 21 "ADC500.dat" 20 500 (readEnv []) (by decide) (by decide) rfl rfl
    (by decide)).trans (by decide)

/-! ### C4: the bytes written by `fatTest_WriteBinFile` -/

/-- C4, evaluated at `pointCount = 65536`: with the file opened successfully,
`fatTest_WriteBinFile` does not return for any amount of fuel, because its
16-bit loop index never reaches the 32-bit count; it does not write the
17 + 4 * 65536 bytes the claim describes and stop. -/
theorem fatTest_WriteBinFile_65536_never_returns (fuel : Nat) (filename : String)
    (sampFreq : Nat) :
    fatTest_WriteBinFile fuel FRESULT.FR_OK filename 65536 sampFreq = none := by
  simp only [fatTest_WriteBinFile, if_true]
  rw [fatTest_WriteBinFile_loop_diverges 65536 (Nat.le_refl _) fuel 0 1000 _ (by decide)]

/-! ### C5: binary round trip -/

/-- C5, evaluated at `pointCount = 65536`: writing the file and reading it back
yields no result for any amount of fuel, because `fatTest_WriteBinFile` never
finishes the file. -/
theorem binRoundTrip_65536_never_returns (fuel : Nat) (filename : String) (sampFreq : Nat)
    (env : ReadBinEnv) :
    binRoundTrip fuel filename 65536 sampFreq env = none := by
  have h : fatTest_WriteBinFile fuel FRESULT.FR_OK filename 65536 sampFreq = none := by
    simp only [fatTest_WriteBinFile, if_true]
    rw [fatTest_WriteBinFile_loop_diverges 65536 (Nat.le_refl _) fuel 0 1000 _ (by decide)]
  simp only [binRoundTrip, h]

/-! ### C6: the figures reported by `fatTest_GetDiskInfo` -/

theorem sub_u32_two (n : Nat) (h2 : 2 ≤ n) (h32 : n - 2 < 4294967296) :
    sub_u32 n 2 = n - 2 := by
  unfold sub_u32
  omega

/-- C6: when `f_getfree` succeeds, `fatTest_GetDiskInfo` reports the total
cluster count `n_fatent - 2`, the total sector count `(n_fatent - 2) * csize`
and the free sector count `free_clust * csize`, all in 32-bit unsigned
arithmetic, so the reported total sector count is the reported total cluster
count times the reported cluster size; when `f_getfree` fails, the error line
is the whole output. -/
theorem fatTest_GetDiskInfo_report (_MAX_SS _MIN_SS : Nat) (res : FRESULT) (free_clust : Nat)
    (fs : FATFS) :
    (res = FRESULT.FR_OK →
      fatTest_GetDiskInfo _MAX_SS _MIN_SS res free_clust fs =
        [⟨"*** FAT disk info ***\r\n", []⟩,
         ⟨"FAT type = %d\r\n", [PArg.num fs.fs_type]⟩,
         ⟨"[1=FAT12,2=FAT16,3=FAT32,4=EXFAT]\r\n", []⟩,
         ⟨"Sector size(bytes) = %d\r\n",
           [PArg.num (if _MAX_SS = _MIN_SS then _MIN_SS else fs.ssize)]⟩,
         ⟨"Cluster size(sectors) = %d\r\n", [PArg.num fs.csize]⟩,
         ⟨"Total cluster count = %d\r\n", [PArg.num (sub_u32 fs.n_fatent 2)]⟩,
         ⟨"Total sector count = %d\r\n", [PArg.num (sub_u32 fs.n_fatent 2 * fs.csize % 2 ^ 32)]⟩,
         ⟨if _MAX_SS = _MIN_SS then "Total space(MB) = %d\r\n" else "Total space(KB) = %d\r\n",
           [PArg.num (space _MAX_SS _MIN_SS fs (sub_u32 fs.n_fatent 2 * fs.csize % 2 ^ 32))]⟩,
         ⟨"Free cluster count = %d\r\n", [PArg.num free_clust]⟩,
         ⟨"Free sector count = %d\r\n", [PArg.num (free_clust * fs.csize % 2 ^ 32)]⟩,
         ⟨if _MAX_SS = _MIN_SS then "Free space(MB) = %d\r\n" else "Free space(KB) = %d\r\n",
           [PArg.num (space _MAX_SS _MIN_SS fs (free_clust * fs.csize % 2 ^ 32))]⟩,
         ⟨"Get FAT disk info OK\r\n", []⟩] ∧
      (2 ≤ fs.n_fatent → fs.n_fatent < 2 ^ 32 → sub_u32 fs.n_fatent 2 = fs.n_fatent - 2)) ∧
    (res ≠ FRESULT.FR_OK →
      fatTest_GetDiskInfo _MAX_SS _MIN_SS res free_clust fs = [⟨"f_getfree() error\r\n", []⟩]) := by
  constructor
  · intro h
    refine ⟨?_, fun h2 h32 => sub_u32_two _ h2 (by omega)⟩
    simp only [fatTest_GetDiskInfo, h, ne_eq, not_true_eq_false, if_false, total_sector,
      free_sector, to_u32]
    rfl
  · intro h
    simp only [fatTest_GetDiskInfo, h, ne_eq, not_false_eq_true, if_true]

/-- C6 on a volume of 60000 clusters of 64 sectors with 30000 clusters free,
and on a failed `f_getfree`. -/
theorem fatTest_GetDiskInfo_report_witness :
    fatTest_GetDiskInfo 512 512 FRESULT.FR_OK 30000 fs_2GB =
      [⟨"*** FAT disk info ***\r\n", []⟩,
       ⟨"FAT type = %d\r\n", [PArg.num 3]⟩,
       ⟨"[1=FAT12,2=FAT16,3=FAT32,4=EXFAT]\r\n", []⟩,
       ⟨"Sector size(bytes) = %d\r\n", [PArg.num 512]⟩,
       ⟨"Cluster size(sectors) = %d\r\n", [PArg.num 64]⟩,
       ⟨"Total cluster count = %d\r\n", [PArg.num 60000]⟩,
       ⟨"Total sector count = %d\r\n", [PArg.num 3840000]⟩,
       ⟨"Total space(MB) = %d\r\n", [PArg.num 1875]⟩,
       ⟨"Free cluster count = %d\r\n", [PArg.num 30000]⟩,
       ⟨"Free sector count = %d\r\n", [PArg.num 1920000]⟩,
       ⟨"Free space(MB) = %d\r\n", [PArg.num 937]⟩,
       ⟨"Get FAT disk info OK\r\n", []⟩] ∧
    fatTest_GetDiskInfo 512 512 FRESULT.FR_DISK_ERR 30000 fs_2GB
      = [⟨"f_getfree() error\r\n", []⟩] :=
  ⟨(((fatTest_GetDiskInfo_report 512 512 FRESULT.FR_OK 30000 fs_2GB).1 rfl).1).trans
      (by decide),
   (fatTest_GetDiskInfo_report 512 512 FRESULT.FR_DISK_ERR 30000 fs_2GB).2 (by decide)⟩

/-! ### C7: free space against total space -/

/-- C8: for every card information with a 32-bit `BlockNbr` and any `BlockSize`, the
capacity printed by `SDCard_ShowInfo` is `((BlockNbr / 1024) * BlockSize) / 1024`
with truncating divisions and the product taken modulo 2^32; for
`BlockSize <= 1024` the product stays below 2^32, and for `BlockSize = 512` the
printed value is `BlockNbr / 2048`. -/
theorem SDCard_ShowInfo_capacity (cardINfo : HAL_SD_CardInfoTypeDef)
    (hN : cardINfo.BlockNbr < 2 ^ 32) :
    SDCard_ShowInfo HAL_StatusTypeDef.HAL_OK cardINfo =
      [⟨"*** HAL_SD_GetCardInfo() info ***\r\n", []⟩,
       ⟨"Card Type = %d\r\n", [PArg.num cardINfo.CardType]⟩,
       ⟨"Card Version = %d\r\n", [PArg.num cardINfo.CardVersion]⟩,
       ⟨"Relative Card Address = %d\r\n", [PArg.num cardINfo.RelCardAdd]⟩,
       ⟨"Block Count = %d\r\n", [PArg.num cardINfo.BlockNbr]⟩,
       ⟨"Block Size(Bytes) = %d\r\n", [PArg.num cardINfo.BlockSize]⟩,
       ⟨"Logic Block Count = %d\r\n", [PArg.num cardINfo.LogBlockNbr]⟩,
       ⟨"Logic Block Size = %d\r\n", [PArg.num cardINfo.LogBlockSize]⟩,
       ⟨"SD Card Capacity(MB) = %d\r\n",
         [PArg.num ((cardINfo.BlockNbr / 1024 * cardINfo.BlockSize) % 2 ^ 32 / 1024)]⟩] ∧
    (cardINfo.BlockSize ≤ 1024 → cardINfo.BlockNbr / 1024 * cardINfo.BlockSize < 2 ^ 32) ∧
    (cardINfo.BlockSize = 512 →
      (cardINfo.BlockNbr / 1024 * cardINfo.BlockSize) % 2 ^ 32 / 1024
        = cardINfo.BlockNbr / 2048) := by
  refine ⟨?_, ?_, ?_⟩
  · simp only [SDCard_ShowInfo, ne_eq, not_true_eq_false, if_false, to_u32]
    rfl
  · intro h
    have h1 : cardINfo.BlockNbr / 1024 ≤ 4194303 := by omega
    have h2 : cardINfo.BlockNbr / 1024 * cardINfo.BlockSize ≤ 4194303 * 1024 :=
      Nat.mul_le_mul h1 h
    omega
  · intro h
    rw [h]
    omega

/-- C8 on an 8 GB card of 15523840 blocks of 512 bytes: 7580 MB. -/
theorem SDCard_ShowInfo_capacity_witness :
    SDCard_ShowInfo HAL_StatusTypeDef.HAL_OK card_8GB =
      [⟨"*** HAL_SD_GetCardInfo() info ***\r\n", []⟩,
       ⟨"Card Type = %d\r\n", [PArg.num 1]⟩,
       ⟨"Card Version = %d\r\n", [PArg.num 1]⟩,
       ⟨"Relative Card Address = %d\r\n", [PArg.num 43690]⟩,
       ⟨"Block Count = %d\r\n", [PArg.num 15523840]⟩,
       ⟨"Block Size(Bytes) = %d\r\n", [PArg.num 512]⟩,
       ⟨"Logic Block Count = %d\r\n", [PArg.num 15523840]⟩,
       ⟨"Logic Block Size = %d\r\n", [PArg.num 512]⟩,
       ⟨"SD Card Capacity(MB) = %d\r\n", [PArg.num 7580]⟩] ∧
    (15523840 / 1024 * 512 < 2 ^ 32) ∧
    ((15523840 / 1024 * 512) % 2 ^ 32 / 1024 = 15523840 / 2048) :=
  ⟨(SDCard_ShowInfo_capacity card_8GB (by decide)).1.trans (by decide),
   (SDCard_ShowInfo_capacity card_8GB (by decide)).2.1 (by decide),
   (SDCard_ShowInfo_capacity card_8GB (by decide)).2.2 rfl⟩

/-! ### C9: the entries listed by `fatTest_ScanDir` -/

theorem and_AM_DIR_ne_zero_iff (a : Nat) : a &&& AM_DIR ≠ 0 ↔ a.testBit 4 = true := by
  have h : a &&& AM_DIR = (a.testBit 4).toNat * 2 ^ 4 := Nat.and_two_pow a 4
  rw [h]
  cases a.testBit 4 <;> simp

theorem fatTest_ScanDir_loop_eq (dir : List (FRESULT × FILINFO)) :
    ∀ st : List Printf × List Call,
      fatTest_ScanDir_loop dir st
        = (st.1 ++ (dir.takeWhile listed).map entryLine,
           st.2 ++ List.replicate ((dir.takeWhile listed).length + 1) Call.f_readdir) := by
  induction dir with
  | nil =>
    intro st
    simp [fatTest_ScanDir_loop]
  | cons r dir ih =>
    intro st
    obtain ⟨res, dir_info⟩ := r
    by_cases hstop : res ≠ FRESULT.FR_OK ∨ dir_info.fname = ""
    · have hl : listed (res, dir_info) = false := by
        rcases hstop with h | h <;> simp [listed, h]
      simp [fatTest_ScanDir_loop, hstop, List.takeWhile_cons, hl]
    · have hl : listed (res, dir_info) = true := by
        simp only [not_or, not_not] at hstop
        simp [listed, hstop.1, hstop.2]
      by_cases hdir : dir_info.fattrib &&& AM_DIR ≠ 0
      · have hbit := (and_AM_DIR_ne_zero_iff _).mp hdir
        rw [fatTest_ScanDir_loop, if_neg hstop, if_pos hdir, ih]
        simp [List.takeWhile_cons, hl, entryLine, hbit, List.replicate_succ]
      · have hbit : dir_info.fattrib.testBit 4 = false := by
          cases hb : dir_info.fattrib.testBit 4
          · rfl
          · exact absurd ((and_AM_DIR_ne_zero_iff _).mpr hb) hdir
        rw [fatTest_ScanDir_loop, if_neg hstop, if_neg hdir, ih]
        simp [List.takeWhile_cons, hl, entryLine, hbit, List.replicate_succ]

/-- C9: with `f_readdir` answering the sequence `dir`, `fatTest_ScanDir` lists
exactly the longest prefix of results with status `FR_OK` and a non-empty name,
in order, each as `DIR` if bit `AM_DIR` of its attribute is set and as `FILE`
otherwise, and stops at the first other result (one `f_readdir` more than
entries listed); when `f_opendir` fails it lists nothing and makes no
`f_readdir` call. -/
theorem fatTest_ScanDir_lists (PathName : String) (res : FRESULT)
    (dir : List (FRESULT × FILINFO)) :
    (res = FRESULT.FR_OK →
      fatTest_ScanDir PathName res dir =
        ([⟨"All entries in dir %s\r\n", [PArg.str PathName]⟩,
          ⟨"--------------------------------\r\n", []⟩]
          ++ (dir.takeWhile listed).map entryLine
          ++ [⟨"--------------------------------\r\n", []⟩, ⟨"Scan dir OK\r\n", []⟩],
         [Call.f_opendir]
          ++ List.replicate ((dir.takeWhile listed).length + 1) Call.f_readdir
          ++ [Call.f_closedir])) ∧
    (res ≠ FRESULT.FR_OK →
      fatTest_ScanDir PathName res dir =
        ([⟨"Failed to open directory: %s\r\n", [PArg.str PathName]⟩],
         [Call.f_opendir, Call.f_closedir])) := by
  constructor
  · intro h
    simp only [fatTest_ScanDir, h, ne_eq, not_true_eq_false, if_false, fatTest_ScanDir_loop_eq]
  · intro h
    simp only [fatTest_ScanDir, h, ne_eq, not_false_eq_true, if_true]

/-- C9 on an empty directory (no entry), on a directory with one file and one
subdirectory (two entries, `FILE` then `DIR`), and on a directory that cannot
be opened. -/
theorem fatTest_ScanDir_lists_witness :
    fatTest_ScanDir "0:/" FRESULT.FR_OK [] =
      ([⟨"All entries in dir %s\r\n", [PArg.str "0:/"]⟩,
        ⟨"--------------------------------\r\n", []⟩,
        ⟨"--------------------------------\r\n", []⟩,
        ⟨"Scan dir OK\r\n", []⟩],
       [Call.f_opendir, Call.f_readdir, Call.f_closedir]) ∧
    fatTest_ScanDir "0:/" FRESULT.FR_OK dir_file_and_subdir =
      ([⟨"All entries in dir %s\r\n", [PArg.str "0:/"]⟩,
        ⟨"--------------------------------\r\n", []⟩,
        ⟨"FILE  %s\r\n", [PArg.str "readme.txt"]⟩,
        ⟨"DIR   %s\r\n", [PArg.str "SubDir1"]⟩,
        ⟨"--------------------------------\r\n", []⟩,
        ⟨"Scan dir OK\r\n", []⟩],
       [Call.f_opendir, Call.f_readdir, Call.f_readdir, Call.f_readdir, Call.f_closedir]) ∧
    fatTest_ScanDir "0:/" FRESULT.FR_NO_PATH dir_file_and_subdir =
      ([⟨"Failed to open directory: %s\r\n", [PArg.str "0:/"]⟩],
       [Call.f_opendir, Call.f_closedir]) :=
  ⟨((fatTest_ScanDir_lists "0:/" FRESULT.FR_OK []).1 rfl).trans (by decide),
   ((fatTest_ScanDir_lists "0:/" FRESULT.FR_OK dir_file_and_subdir).1 rfl).trans (by decide),
   (fatTest_ScanDir_lists "0:/" FRESULT.FR_NO_PATH dir_file_and_subdir).2 (by decide)⟩

/-! ### C10: the poll loop of `SDCard_EraseBlocks` -/

theorem SDCard_EraseBlocks_loop_exits (states : Nat → Nat) :
    ∀ (m n fuel : Nat) (log : List Call),
      states (n + m) = HAL_SD_CARD_TRANSFER →
      (∀ j, n ≤ j → j < n + m → states j ≠ HAL_SD_CARD_TRANSFER) →
      m + 1 ≤ fuel →
      SDCard_EraseBlocks_loop states fuel (n + 1) (states n) log
        = some (HAL_SD_CARD_TRANSFER,
            log ++ (List.replicate m [Call.HAL_Delay 1, Call.HAL_SD_GetCardState]).flatten) := by
  intro m
  induction m with
  | zero =>
    intro n fuel log hk _ hfuel
    obtain ⟨fuel, rfl⟩ : ∃ k, fuel = k + 1 := ⟨fuel - 1, by omega⟩
    rw [Nat.add_zero] at hk
    simp [SDCard_EraseBlocks_loop, hk]
  | succ m ih =>
    intro n fuel log hk hbefore hfuel
    obtain ⟨fuel, rfl⟩ : ∃ k, fuel = k + 1 := ⟨fuel - 1, by omega⟩
    have hn : states n ≠ HAL_SD_CARD_TRANSFER := hbefore n (Nat.le_refl _) (by omega)
    rw [SDCard_EraseBlocks_loop, if_pos hn,
      ih (n + 1) fuel _ (by rw [← hk]; congr 1; omega)
        (fun j h1 h2 => hbefore j (by omega) (by omega)) (by omega)]
    simp [List.replicate_succ]

theorem SDCard_EraseBlocks_loop_diverges (states : Nat → Nat)
    (hnever : ∀ j, states j ≠ HAL_SD_CARD_TRANSFER) :
    ∀ (fuel n : Nat) (log : List Call),
      SDCard_EraseBlocks_loop states fuel (n + 1) (states n) log = none := by
  intro fuel
  induction fuel with
  | zero =>
    intro n log
    rfl
  | succ fuel ih =>
    intro n log
    rw [SDCard_EraseBlocks_loop, if_pos (hnever n)]
    exact ih (n + 1) _

/-- C10: for a sequence of card states whose first `HAL_SD_CARD_TRANSFER` is at
index `k`, `SDCard_EraseBlocks` issues one erase of blocks 0..10, then `k + 1`
state queries with `k` delays of 1 ms between them, and returns with the last
observed state equal to `HAL_SD_CARD_TRANSFER`, whatever `HAL_SD_Erase`
returned; `k` is arbitrary, and for a sequence that never contains
`HAL_SD_CARD_TRANSFER` the function does not return on any amount of fuel. -/
theorem SDCard_EraseBlocks_polls (res : HAL_StatusTypeDef) (states : Nat → Nat) :
    (∀ k, states k = HAL_SD_CARD_TRANSFER →
      (∀ j, j < k → states j ≠ HAL_SD_CARD_TRANSFER) →
      ∀ fuel, k + 1 ≤ fuel →
        SDCard_EraseBlocks fuel res states =
          some { cardState := HAL_SD_CARD_TRANSFER
                 out :=
                   [⟨"*** Erasing blocks ***\r\n", []⟩,
                    if res = HAL_StatusTypeDef.HAL_OK then ⟨"Erase blocks success\r\n", []⟩
                    else ⟨"Erase blocks error\r\n", []⟩,
                    ⟨"GetCardState() = %d\r\n", [PArg.num (states 0)]⟩,
                    ⟨"GetCardState() = %d\r\n", [PArg.num HAL_SD_CARD_TRANSFER]⟩,
                    ⟨"Blocks 0-10 is erased.\r\n", []⟩]
                 log := [Call.HAL_SD_Erase 0 10, Call.HAL_SD_GetCardState] ++
                   (List.replicate k [Call.HAL_Delay 1, Call.HAL_SD_GetCardState]).flatten }) ∧
    ((∀ j, states j ≠ HAL_SD_CARD_TRANSFER) →
      ∀ fuel, SDCard_EraseBlocks fuel res states = none) := by
  constructor
  · intro k hk hbefore fuel hfuel
    have h := SDCard_EraseBlocks_loop_exits states k 0 fuel
      [Call.HAL_SD_Erase 0 10, Call.HAL_SD_GetCardState]
      (by rw [Nat.zero_add]; exact hk)
      (fun j _ h2 => hbefore j (by omega)) hfuel
    rw [Nat.zero_add] at h
    simp only [SDCard_EraseBlocks, h]
    rfl
  · intro hnever fuel
    have h := SDCard_EraseBlocks_loop_diverges states hnever fuel 0
      [Call.HAL_SD_Erase 0 10, Call.HAL_SD_GetCardState]
    rw [Nat.zero_add] at h
    simp only [SDCard_EraseBlocks, h]

/-- C10 on a card that becomes ready at the fourth query after a failed erase
(three delays), and on a card that stays in state 7. -/
theorem SDCard_EraseBlocks_polls_witness :
    SDCard_EraseBlocks 4 HAL_StatusTypeDef.HAL_ERROR states_ready_at_3 =
      some { cardState := 4
             out :=
               [⟨"*** Erasing blocks ***\r\n", []⟩,
                ⟨"Erase blocks error\r\n", []⟩,
                ⟨"GetCardState() = %d\r\n", [PArg.num 7]⟩,
                ⟨"GetCardState() = %d\r\n", [PArg.num 4]⟩,
                ⟨"Blocks 0-10 is erased.\r\n", []⟩]
             log := [Call.HAL_SD_Erase 0 10, Call.HAL_SD_GetCardState,
                     Call.HAL_Delay 1, Call.HAL_SD_GetCardState,
                     Call.HAL_Delay 1, Call.HAL_SD_GetCardState,
                     Call.HAL_Delay 1, Call.HAL_SD_GetCardState] } ∧
    (∀ fuel, SDCard_EraseBlocks fuel HAL_StatusTypeDef.HAL_OK (fun _ => 7) = none) :=
  ⟨((SDCard_EraseBlocks_polls HAL_StatusTypeDef.HAL_ERROR states_ready_at_3).1 3 (by decide)
      (by decide) 4 (by decide)).trans (by decide),
   (SDCard_EraseBlocks_polls HAL_StatusTypeDef.HAL_OK (fun _ => 7)).2
      (fun _ => by decide)⟩

/-! ### C11: `f_close` on every path -/

theorem digits_10_two (n : Nat) (h1 : 10 ≤ n) (h2 : n < 100) :
    Nat.digits 10 n = [n % 10, n / 10] := by
  rw [Nat.digits_def' (by decide) (by omega), Nat.digits_of_lt 10 (n / 10) (by omega) (by omega)]

theorem digits_10_three (n : Nat) (h1 : 100 ≤ n) (h2 : n < 1000) :
    Nat.digits 10 n = [n % 10, n / 10 % 10, n / 10 / 10] := by
  rw [Nat.digits_def' (by decide) (by omega), digits_10_two (n / 10) (by omega) (by omega)]

theorem digits_10_four (n : Nat) (h1 : 1000 ≤ n) (h2 : n < 10000) :
    Nat.digits 10 n = [n % 10, n / 10 % 10, n / 10 / 10 % 10, n / 10 / 10 / 10] := by
  rw [Nat.digits_def' (by decide) (by omega), digits_10_three (n / 10) (by omega) (by omega)]

/-- The conversion `%02d` of a number below 100 is its two decimal digits. -/
theorem fmt_0d_two (n : Nat) (h : n ≤ 99) : fmt_0d 2 n = [48 + n / 10, 48 + n % 10] := by
  rcases Nat.eq_zero_or_pos n with h0 | hpos
  · subst h0
    rfl
  · have hne : n ≠ 0 := by omega
    rcases Nat.lt_or_ge n 10 with h10 | h10
    · have e1 : n / 10 = 0 := by omega
      have e2 : n % 10 = n := by omega
      simp [fmt_0d, decimal, hne, Nat.digits_of_lt 10 n hne h10, e1, e2]
    · simp [fmt_0d, decimal, hne, digits_10_two n h10 (by omega)]

/-- The conversion `%04d` of a number below 10000 is its four decimal digits. -/
theorem fmt_0d_four (n : Nat) (h : n ≤ 9999) :
    fmt_0d 4 n = [48 + n / 1000, 48 + n / 100 % 10, 48 + n / 10 % 10, 48 + n % 10] := by
  rcases Nat.eq_zero_or_pos n with h0 | hpos
  · subst h0
    rfl
  · have hne : n ≠ 0 := by omega
    rcases Nat.lt_or_ge n 10 with h10 | h10
    · have e1 : n / 1000 = 0 := by omega
      have e2 : n / 100 % 10 = 0 := by omega
      have e3 : n / 10 % 10 = 0 := by omega
      have e4 : n % 10 = n := by omega
      simp [fmt_0d, decimal, hne, Nat.digits_of_lt 10 n hne h10, e1, e2, e3, e4,
        List.replicate_succ]
    · rcases Nat.lt_or_ge n 100 with h100 | h100
      · have e1 : n / 1000 = 0 := by omega
        have e2 : n / 100 % 10 = 0 := by omega
        have e3 : n / 10 % 10 = n / 10 := by omega
        simp [fmt_0d, decimal, hne, digits_10_two n h10 h100, e1, e2, e3, List.replicate_succ]
      · rcases Nat.lt_or_ge n 1000 with h1000 | h1000
        · have e1 : n / 1000 = 0 := by omega
          have e2 : n / 100 % 10 = n / 10 / 10 := by omega
          simp [fmt_0d, decimal, hne, digits_10_three n h100 h1000, e1, e2,
            List.replicate_succ]
        · have e1 : n / 1000 = n / 10 / 10 / 10 := by omega
          have e2 : n / 100 % 10 = n / 10 / 10 % 10 := by omega
          simp [fmt_0d, decimal, hne, digits_10_four n h1000 (by omega), e1, e2]

theorem fatTest_WriteTXTFile_file (filename : String) (year month day : Nat) :
    (fatTest_WriteTXTFile FRESULT.FR_OK filename year month day).file =
      { done := bytes "Line1: Hello FatFS\n" ++ bytes "Line2: UPC, Qingdao\n" ++
          (bytes "Line3: Date=" ++ fmt_0d 4 year ++ [45] ++ fmt_0d 2 month ++ [45] ++
            fmt_0d 2 day ++ [10])
        rest := [] } := by
  have hfmt : f_printf_chars "Line3: Date=%04d-%02d-%02d\n".toList [year, month, day]
      = bytes "Line3: Date=" ++ fmt_0d 4 year ++ [45] ++ fmt_0d 2 month ++ [45] ++
          fmt_0d 2 day ++ [10] := by
    simp [f_printf_chars, bytes]
  simp only [fatTest_WriteTXTFile, if_true, f_printf, f_puts, f_write, hfmt, bytes,
    List.nil_append, List.drop_nil, List.append_assoc]

/-- C12: for every calendar date (year 0..9999, month 1..12, day 1..31) and an
opened file, `fatTest_WriteTXTFile` writes exactly the three lines
`Line1: Hello FatFS`, `Line2: UPC, Qingdao` and `Line3: Date=YYYY-MM-DD`, each
ended by a line feed, where `YYYY`, `MM`, `DD` are the decimal digits of year,
month and day padded with zeros to 4, 2 and 2 characters; the date line has
exactly 23 bytes. -/
theorem fatTest_WriteTXTFile_lines (filename : String) (year month day : Nat)
    (hy : year ≤ 9999) (hm : 1 ≤ month ∧ month ≤ 12) (hd : 1 ≤ day ∧ day ≤ 31) :
    (fatTest_WriteTXTFile FRESULT.FR_OK filename year month day).file =
      { done := bytes "Line1: Hello FatFS\n" ++ bytes "Line2: UPC, Qingdao\n" ++
          dateLine year month day
        rest := [] } ∧
    (dateLine year month day).length = 23 ∧
    year = 1000 * (year / 1000) + 100 * (year / 100 % 10) + 10 * (year / 10 % 10) + year % 10 ∧
    year / 1000 ≤ 9 ∧
    month = 10 * (month / 10) + month % 10 ∧ month / 10 ≤ 9 ∧
    day = 10 * (day / 10) + day % 10 ∧ day / 10 ≤ 9 := by
  refine ⟨?_, by simp [dateLine, bytes], by omega, by omega, by omega, by omega, by omega,
    by omega⟩
  rw [fatTest_WriteTXTFile_file, fmt_0d_four year hy, fmt_0d_two month (by omega),
    fmt_0d_two day (by omega)]
  simp [dateLine]

/-- C12 on the call `fatTest_WriteTXTFile("readme.txt", 2019, 3, 5)` of `main`:
the date line is `Line3: Date=2019-03-05`. -/
theorem fatTest_WriteTXTFile_lines_witness :
    (fatTest_WriteTXTFile FRESULT.FR_OK "readme.txt" 2019 3 5).file =
      { done := bytes "Line1: Hello FatFS\nLine2: UPC, Qingdao\nLine3: Date=2019-03-05\n"
        rest := [] } ∧
    dateLine 2019 3 5 = bytes "Line3: Date=2019-03-05\n" ∧
    (dateLine 2019 3 5).length = 23 :=
  ⟨(fatTest_WriteTXTFile_lines "readme.txt" 2019 3 5 (by decide) (by decide) (by decide)).1.trans
      (by decide),
   by decide,
   (fatTest_WriteTXTFile_lines "readme.txt" 2019 3 5 (by decide) (by decide) (by decide)).2.1⟩

/-! ### C13: text round trip -/

theorem f_gets_chars_line (body more : List Nat) (hbody : ∀ c ∈ body, c ≠ 10) :
    ∀ n, body.length + 1 ≤ n → f_gets_chars n (body ++ 10 :: more) = body ++ [10] := by
  induction body with
  | nil =>
    intro n hn
    obtain ⟨n, rfl⟩ : ∃ k, n = k + 1 := ⟨n - 1, by simp at hn; omega⟩
    simp [f_gets_chars]
  | cons c body ih =>
    intro n hn
    obtain ⟨n, rfl⟩ : ∃ k, n = k + 1 := ⟨n - 1, by simp at hn; omega⟩
    have hc : c ≠ 10 := hbody c (List.mem_cons_self _ _)
    have ih2 := ih (fun x hx => hbody x (List.mem_cons_of_mem _ hx)) n
      (by simp at hn; omega)
    simp [f_gets_chars, hc, ih2]

theorem f_gets_line (done body more : List Nat) (hbody : ∀ c ∈ body, c ≠ 10)
    (hlen : body.length ≤ 38) :
    f_gets 40 { done := done, rest := (body ++ [10]) ++ more }
      = (body ++ [10], { done := done ++ (body ++ [10]), rest := more }) := by
  have h := f_gets_chars_line body more hbody 39 (by omega)
  simp only [List.append_assoc, List.singleton_append] at h ⊢
  simp [f_gets, h]

/-- Reading a text file made of lines that end in a line feed and fit the
40-byte buffer: one `f_gets` per line, each delivering its line unchanged. -/
theorem fatTest_ReadTXTFile_loop_lines :
    ∀ (ls : List (List Nat)) (fuel : Nat) (done : List Nat) (acc : ReadTXTResult),
      (∀ body ∈ ls, (∀ c ∈ body, c ≠ 10) ∧ body.length ≤ 38) →
      ls.length + 1 ≤ fuel →
      fatTest_ReadTXTFile_loop fuel
          ({ done := done, rest := (ls.map (fun b => b ++ [10])).flatten }, acc)
        = some ({ done := done ++ (ls.map (fun b => b ++ [10])).flatten, rest := [] },
                { lines := acc.lines ++ ls.map (fun b => b ++ [10])
                  out := acc.out ++ ls.map (fun b => ⟨"%s", [PArg.str (cstr (b ++ [10]))]⟩)
                  log := acc.log ++ List.replicate ls.length Call.f_gets }) := by
  intro ls
  induction ls with
  | nil =>
    intro fuel done acc _ hfuel
    obtain ⟨fuel, rfl⟩ : ∃ k, fuel = k + 1 := ⟨fuel - 1, by simp at hfuel; omega⟩
    simp [fatTest_ReadTXTFile_loop, f_eof]
  | cons body ls ih =>
    intro fuel done acc hls hfuel
    obtain ⟨fuel, rfl⟩ : ∃ k, fuel = k + 1 := ⟨fuel - 1, by simp at hfuel; omega⟩
    have hb := hls body (List.mem_cons_self _ _)
    rw [fatTest_ReadTXTFile_loop]
    simp only [List.map_cons, List.flatten_cons]
    rw [if_pos (by simp [f_eof]), f_gets_line done body _ hb.1 hb.2]
    simp only []
    rw [ih fuel _ _ (fun b hb' => hls b (List.mem_cons_of_mem _ hb'))
      (by simp at hfuel; omega)]
    simp [List.replicate_succ]

theorem f_gets_consumes (fp : FIL) (h : f_eof fp = false) :
    (f_gets 40 fp).2.rest.length < fp.rest.length := by
  obtain ⟨done, rest⟩ := fp
  cases rest with
  | nil => simp [f_eof] at h
  | cons c cs =>
    by_cases hc : c = 10 <;> simp [f_gets, f_gets_chars, hc]
    omega

/-- The line loop ends on every file: fuel for one more condition check than
the file has bytes is enough. -/
theorem fatTest_ReadTXTFile_loop_returns :
    ∀ (fuel : Nat) (st : FIL × ReadTXTResult), st.1.rest.length + 1 ≤ fuel →
      (fatTest_ReadTXTFile_loop fuel st).isSome = true := by
  intro fuel
  induction fuel with
  | zero =>
    intro st h
    omega
  | succ fuel ih =>
    intro st h
    rw [fatTest_ReadTXTFile_loop]
    by_cases he : f_eof st.1 = true
    · simp [he]
    · have he2 : f_eof st.1 = false := by simpa using he
      rw [if_pos (by simp [he2])]
      apply ih
      have := f_gets_consumes st.1 he2
      simp only at this ⊢
      omega

theorem decimal_digit (n : Nat) : ∀ c ∈ decimal n, 48 ≤ c ∧ c ≤ 57 := by
  intro c hc
  unfold decimal at hc
  split at hc
  · simp at hc
    omega
  · simp only [List.mem_map, List.mem_reverse] at hc
    obtain ⟨d, hd, rfl⟩ := hc
    have := Nat.digits_lt_base (by decide : 1 < 10) hd
    omega

theorem decimal_length_le (n k : Nat) (hk : 1 ≤ k) (h : n < 10 ^ k) :
    (decimal n).length ≤ k := by
  unfold decimal
  split
  · simpa using hk
  · rename_i hne
    rw [List.length_map, List.length_reverse, Nat.digits_len 10 n (by decide) hne]
    exact Nat.log_lt_of_lt_pow hne h

theorem fmt_0d_digit (w n : Nat) : ∀ c ∈ fmt_0d w n, c ≠ 10 := by
  intro c hc
  unfold fmt_0d at hc
  rcases List.mem_append.mp hc with h | h
  · have := (List.mem_replicate.mp h).2
    omega
  · have := decimal_digit n c h
    omega

theorem fmt_0d_length_le (w n k : Nat) (hk : 1 ≤ k) (hw : w ≤ k) (h : n < 10 ^ k) :
    (fmt_0d w n).length ≤ k := by
  have := decimal_length_le n k hk h
  simp only [fmt_0d, List.length_append, List.length_replicate]
  omega

theorem dateLineFmt_body (year month day : Nat) (hy : year < 65536) (hm : month < 256)
    (hd : day < 256) :
    (∀ c ∈ bytes "Line3: Date=" ++ fmt_0d 4 year ++ [45] ++ fmt_0d 2 month ++ [45] ++
      fmt_0d 2 day, c ≠ 10) ∧
    (bytes "Line3: Date=" ++ fmt_0d 4 year ++ [45] ++ fmt_0d 2 month ++ [45] ++
      fmt_0d 2 day).length ≤ 25 := by
  have hl : (bytes "Line3: Date=").length = 12 := by decide
  have hb : ∀ c ∈ bytes "Line3: Date=", c ≠ 10 := by decide
  have h4 := fmt_0d_length_le 4 year 5 (by decide) (by decide) (by omega)
  have h2m := fmt_0d_length_le 2 month 3 (by decide) (by decide) (by omega)
  have h2d := fmt_0d_length_le 2 day 3 (by decide) (by decide) (by omega)
  constructor
  · intro c hc
    simp only [List.mem_append, List.mem_singleton] at hc
    rcases hc with ((((h | h) | h) | h) | h) | h
    · exact hb c h
    · exact fmt_0d_digit 4 year c h
    · omega
    · exact fmt_0d_digit 2 month c h
    · omega
    · exact fmt_0d_digit 2 day c h
  · simp only [List.length_append, List.length_singleton, hl]
    omega

/-- C13: for every year of 16 bits and month and day of 8 bits, each of the
three lines `fatTest_WriteTXTFile` writes has at most 39 bytes, and
`fatTest_ReadTXTFile` on that file delivers exactly these three lines,
unchanged and in order, in three `f_gets` calls, and then stops at the end of
the file; on every file the read loop is finite (fuel for one more check than
the file has bytes suffices), each `f_gets` before the end of the file
consuming at least one byte. -/
theorem text_round_trip (filename : String) (year month day : Nat) (hy : year < 65536)
    (hm : month < 256) (hd : day < 256) :
    (fatTest_WriteTXTFile FRESULT.FR_OK filename year month day).file.data
      = bytes "Line1: Hello FatFS\n" ++ bytes "Line2: UPC, Qingdao\n" ++
          dateLineFmt year month day ∧
    (bytes "Line1: Hello FatFS\n").length ≤ 39 ∧
    (bytes "Line2: UPC, Qingdao\n").length ≤ 39 ∧
    (dateLineFmt year month day).length ≤ 39 ∧
    (∀ fuel, 4 ≤ fuel →
      fatTest_ReadTXTFile fuel filename FRESULT.FR_OK
          (fatTest_WriteTXTFile FRESULT.FR_OK filename year month day).file.data
        = some { lines := [bytes "Line1: Hello FatFS\n", bytes "Line2: UPC, Qingdao\n",
                           dateLineFmt year month day]
                 out :=
                   [⟨"Reading TXT file: %s\r\n", [PArg.str filename]⟩,
                    ⟨"--------------------------------\r\n", []⟩,
                    ⟨"%s", [PArg.str "Line1: Hello FatFS\n"]⟩,
                    ⟨"%s", [PArg.str "Line2: UPC, Qingdao\n"]⟩,
                    ⟨"%s", [PArg.str (cstr (dateLineFmt year month day))]⟩,
                    ⟨"--------------------------------\r\n", []⟩,
                    ⟨"TXT file read completed\r\n", []⟩]
                 log := [Call.f_open, Call.f_gets, Call.f_gets, Call.f_gets, Call.f_close] }) ∧
    (∀ (fuel : Nat) (name : String) (data : List Nat), data.length + 1 ≤ fuel →
      (fatTest_ReadTXTFile fuel name FRESULT.FR_OK data).isSome = true) ∧
    (∀ fp : FIL, f_eof fp = false → (f_gets 40 fp).2.rest.length < fp.rest.length) := by
  have hbody := dateLineFmt_body year month day hy hm hd
  have hdata : (fatTest_WriteTXTFile FRESULT.FR_OK filename year month day).file.data
      = bytes "Line1: Hello FatFS\n" ++ bytes "Line2: UPC, Qingdao\n" ++
          dateLineFmt year month day := by
    rw [FIL.data, fatTest_WriteTXTFile_file]
    simp [dateLineFmt]
  have h1 : bytes "Line1: Hello FatFS\n" = bytes "Line1: Hello FatFS" ++ [10] := by decide
  have h2 : bytes "Line2: UPC, Qingdao\n" = bytes "Line2: UPC, Qingdao" ++ [10] := by decide
  have hc1 : cstr (bytes "Line1: Hello FatFS" ++ [10]) = "Line1: Hello FatFS\n" := by decide
  have hc2 : cstr (bytes "Line2: UPC, Qingdao" ++ [10]) = "Line2: UPC, Qingdao\n" := by
    decide
  have hls : ∀ body ∈ [bytes "Line1: Hello FatFS", bytes "Line2: UPC, Qingdao",
      bytes "Line3: Date=" ++ fmt_0d 4 year ++ [45] ++ fmt_0d 2 month ++ [45] ++
        fmt_0d 2 day], (∀ c ∈ body, c ≠ 10) ∧ body.length ≤ 38 := by
    intro body hb
    simp only [List.mem_cons, List.mem_singleton, List.not_mem_nil, or_false] at hb
    rcases hb with rfl | rfl | rfl
    · exact ⟨by decide, by decide⟩
    · exact ⟨by decide, by decide⟩
    · exact ⟨hbody.1, by have := hbody.2; omega⟩
  refine ⟨hdata, by decide, by decide, ?_, ?_, ?_, f_gets_consumes⟩
  · have := hbody.2
    simp only [dateLineFmt, List.length_append, List.length_singleton] at this ⊢
    omega
  · intro fuel hfuel
    have hloop := fatTest_ReadTXTFile_loop_lines _ fuel []
      { lines := []
        out := [⟨"Reading TXT file: %s\r\n", [PArg.str filename]⟩,
                ⟨"--------------------------------\r\n", []⟩]
        log := [Call.f_open] } hls (by simpa using hfuel)
    have hrest : bytes "Line1: Hello FatFS\n" ++ bytes "Line2: UPC, Qingdao\n" ++
        dateLineFmt year month day
        = (List.map (fun b => b ++ [10]) [bytes "Line1: Hello FatFS",
            bytes "Line2: UPC, Qingdao",
            bytes "Line3: Date=" ++ fmt_0d 4 year ++ [45] ++ fmt_0d 2 month ++ [45] ++
              fmt_0d 2 day]).flatten := by
      rw [h1, h2]
      simp [dateLineFmt]
    rw [hdata, hrest]
    simp only [fatTest_ReadTXTFile, if_true, hloop]
    simp only [List.map_cons, List.map_nil, hc1, hc2, h1, h2, dateLineFmt]
    simp
  · intro fuel name data hfuel
    have h := fatTest_ReadTXTFile_loop_returns fuel
      ({ done := [], rest := data },
       { lines := []
         out := [⟨"Reading TXT file: %s\r\n", [PArg.str name]⟩,
                 ⟨"--------------------------------\r\n", []⟩]
         log := [Call.f_open] }) hfuel
    simp only [fatTest_ReadTXTFile, if_true]
    cases hl : fatTest_ReadTXTFile_loop fuel
      ({ done := [], rest := data },
       { lines := []
         out := [⟨"Reading TXT file: %s\r\n", [PArg.str name]⟩,
                 ⟨"--------------------------------\r\n", []⟩]
         log := [Call.f_open] }) with
    | none => rw [hl] at h; simp at h
    | some st => simp

/-- C13 on `readme.txt` as `main` writes it (2019-03-05) and reads it back. -/
theorem text_round_trip_witness :
    fatTest_ReadTXTFile 4 "readme.txt" FRESULT.FR_OK
        (fatTest_WriteTXTFile FRESULT.FR_OK "readme.txt" 2019 3 5).file.data
      = some { lines := [bytes "Line1: Hello FatFS\n", bytes "Line2: UPC, Qingdao\n",
                         dateLineFmt 2019 3 5]
               out :=
                 [⟨"Reading TXT file: %s\r\n", [PArg.str "readme.txt"]⟩,
                  ⟨"--------------------------------\r\n", []⟩,
                  ⟨"%s", [PArg.str "Line1: Hello FatFS\n"]⟩,
                  ⟨"%s", [PArg.str "Line2: UPC, Qingdao\n"]⟩,
                  ⟨"%s", [PArg.str (cstr (dateLineFmt 2019 3 5))]⟩,
                  ⟨"--------------------------------\r\n", []⟩,
                  ⟨"TXT file read completed\r\n", []⟩]
               log := [Call.f_open, Call.f_gets, Call.f_gets, Call.f_gets, Call.f_close] } ∧
    (fatTest_ReadTXTFile 4 "help.txt" FRESULT.FR_OK [72, 105, 10]).isSome = true :=
  ⟨(text_round_trip "readme.txt" 2019 3 5 (by decide) (by decide) (by decide)).2.2.2.2.1 4
      (by decide),
   (text_round_trip "readme.txt" 2019 3 5 (by decide) (by decide) (by decide)).2.2.2.2.2.1 4
      "help.txt" [72, 105, 10] (by decide)⟩

/-! ### C14: the printed capacity against the byte size -/

/-- For a block size that divides 1024 (512 on every high-capacity card) the
printed capacity is the byte size divided by 2^20. -/
theorem SDCard_capacity_exact (BlockNbr BlockSize d : Nat) (hN : BlockNbr < 2 ^ 32)
    (hd : BlockSize * d = 1024) :
    to_u32 (BlockNbr / 1024 * BlockSize) / 1024 = BlockNbr * BlockSize / 2 ^ 20 := by
  have hd0 : 0 < d := by
    rcases Nat.eq_zero_or_pos d with h | h
    · rw [h] at hd
      omega
    · exact h
  have hS : 0 < BlockSize := by
    rcases Nat.eq_zero_or_pos BlockSize with h | h
    · rw [h] at hd
      omega
    · exact h
  have hSle : BlockSize ≤ 1024 := by
    calc BlockSize = BlockSize * 1 := (Nat.mul_one _).symm
      _ ≤ BlockSize * d := Nat.mul_le_mul_left _ hd0
      _ = 1024 := hd
  have h1 : BlockNbr / 1024 * BlockSize ≤ 4194303 * 1024 :=
    Nat.mul_le_mul (by omega) hSle
  have h2 : to_u32 (BlockNbr / 1024 * BlockSize) = BlockNbr / 1024 * BlockSize := by
    unfold to_u32
    omega
  rw [h2]
  have e1 : BlockNbr / 1024 * BlockSize / 1024 = BlockNbr / 1024 / d := by
    rw [← hd, ← Nat.div_div_eq_div_mul, Nat.mul_div_cancel _ hS]
  have e2 : BlockNbr * BlockSize / 2 ^ 20 = BlockNbr / d / 1024 := by
    have : (2 : Nat) ^ 20 = BlockSize * (d * 1024) := by
      rw [← Nat.mul_assoc, hd]
      norm_num
    rw [this, ← Nat.div_div_eq_div_mul, Nat.mul_div_cancel _ hS, Nat.div_div_eq_div_mul]
  rw [e1, e2, Nat.div_div_eq_div_mul, Nat.div_div_eq_div_mul, Nat.mul_comm]

/-- C14 as stated fails on a card of 1920512 blocks of 2048 bytes:
`SDCard_ShowInfo`, which divides the block count by 1024 before it multiplies,
prints 3750 MB, while the byte size divided by 1024 and by 1024 is 3751. -/
theorem SDCard_ShowInfo_capacity_truncates :
    SDCard_ShowInfo HAL_StatusTypeDef.HAL_OK card_2048_byte_blocks =
      [⟨"*** HAL_SD_GetCardInfo() info ***\r\n", []⟩,
       ⟨"Card Type = %d\r\n", [PArg.num 0]⟩,
       ⟨"Card Version = %d\r\n", [PArg.num 1]⟩,
       ⟨"Relative Card Address = %d\r\n", [PArg.num 43690]⟩,
       ⟨"Block Count = %d\r\n", [PArg.num 1920512]⟩,
       ⟨"Block Size(Bytes) = %d\r\n", [PArg.num 2048]⟩,
       ⟨"Logic Block Count = %d\r\n", [PArg.num 7682048]⟩,
       ⟨"Logic Block Size = %d\r\n", [PArg.num 512]⟩,
       ⟨"SD Card Capacity(MB) = %d\r\n", [PArg.num 3750]⟩] ∧
    card_2048_byte_blocks.BlockNbr * card_2048_byte_blocks.BlockSize / 1024 / 1024 = 3751 ∧
    card_2048_byte_blocks.BlockNbr * card_2048_byte_blocks.BlockSize / 2 ^ 20 = 3751 := by
  decide

/-- When the block count is a multiple of 1024 and the product stays below
2^32, the printed capacity is the byte size divided by 2^20. -/
theorem SDCard_capacity_exact_of_dvd (BlockNbr BlockSize : Nat) (hdvd : 1024 ∣ BlockNbr)
    (hfit : BlockNbr / 1024 * BlockSize < 2 ^ 32) :
    to_u32 (BlockNbr / 1024 * BlockSize) / 1024 = BlockNbr * BlockSize / 2 ^ 20 := by
  obtain ⟨q, rfl⟩ := hdvd
  have hq : 1024 * q / 1024 = q := Nat.mul_div_cancel_left q (by decide)
  rw [hq] at hfit ⊢
  have h2 : to_u32 (q * BlockSize) = q * BlockSize := by
    unfold to_u32
    omega
  have h3 : (2 : Nat) ^ 20 = 1024 * 1024 := by norm_num
  rw [h2, h3, Nat.mul_assoc, Nat.mul_div_mul_left _ _ (by decide : 0 < 1024)]

/-- C14, amended: for every card information with a 32-bit `BlockNbr` whose
`BlockSize` divides 1024 (512 on every high-capacity card), or whose `BlockNbr`
is a multiple of 1024 with `(BlockNbr / 1024) * BlockSize` below 2^32, the
capacity printed by `SDCard_ShowInfo` is the byte size `BlockNbr * BlockSize`
divided by 2^20, rounded down. -/
theorem SDCard_ShowInfo_capacity_floor (cardINfo : HAL_SD_CardInfoTypeDef)
    (hN : cardINfo.BlockNbr < 2 ^ 32)
    (hcard : (∃ d, cardINfo.BlockSize * d = 1024) ∨
      (1024 ∣ cardINfo.BlockNbr ∧ cardINfo.BlockNbr / 1024 * cardINfo.BlockSize < 2 ^ 32)) :
    SDCard_ShowInfo HAL_StatusTypeDef.HAL_OK cardINfo =
      [⟨"*** HAL_SD_GetCardInfo() info ***\r\n", []⟩,
       ⟨"Card Type = %d\r\n", [PArg.num cardINfo.CardType]⟩,
       ⟨"Card Version = %d\r\n", [PArg.num cardINfo.CardVersion]⟩,
       ⟨"Relative Card Address = %d\r\n", [PArg.num cardINfo.RelCardAdd]⟩,
       ⟨"Block Count = %d\r\n", [PArg.num cardINfo.BlockNbr]⟩,
       ⟨"Block Size(Bytes) = %d\r\n", [PArg.num cardINfo.BlockSize]⟩,
       ⟨"Logic Block Count = %d\r\n", [PArg.num cardINfo.LogBlockNbr]⟩,
       ⟨"Logic Block Size = %d\r\n", [PArg.num cardINfo.LogBlockSize]⟩,
       ⟨"SD Card Capacity(MB) = %d\r\n",
         [PArg.num (cardINfo.BlockNbr * cardINfo.BlockSize / 2 ^ 20)]⟩] := by
  have hcap : to_u32 (cardINfo.BlockNbr / 1024 * cardINfo.BlockSize) / 1024
      = cardINfo.BlockNbr * cardINfo.BlockSize / 2 ^ 20 := by
    rcases hcard with ⟨d, hd⟩ | ⟨hdvd, hfit⟩
    · exact SDCard_capacity_exact _ _ d hN hd
    · exact SDCard_capacity_exact_of_dvd _ _ hdvd hfit
  simp only [SDCard_ShowInfo, ne_eq, not_true_eq_false, if_false, hcap]

/-- C14 (amended) on an 8 GB card of 15523840 blocks of 512 bytes: the printed
7580 MB is the byte size 7948206080 divided by 2^20. -/
theorem SDCard_ShowInfo_capacity_floor_witness :
    SDCard_ShowInfo HAL_StatusTypeDef.HAL_OK card_8GB =
      [⟨"*** HAL_SD_GetCardInfo() info ***\r\n", []⟩,
       ⟨"Card Type = %d\r\n", [PArg.num 1]⟩,
       ⟨"Card Version = %d\r\n", [PArg.num 1]⟩,
       ⟨"Relative Card Address = %d\r\n", [PArg.num 43690]⟩,
       ⟨"Block Count = %d\r\n", [PArg.num 15523840]⟩,
       ⟨"Block Size(Bytes) = %d\r\n", [PArg.num 512]⟩,
       ⟨"Logic Block Count = %d\r\n", [PArg.num 15523840]⟩,
       ⟨"Logic Block Size = %d\r\n", [PArg.num 512]⟩,
       ⟨"SD Card Capacity(MB) = %d\r\n", [PArg.num (7948206080 / 2 ^ 20)]⟩] ∧
    (7948206080 : Nat) / 2 ^ 20 = 7580 :=
  ⟨(SDCard_ShowInfo_capacity_floor card_8GB (by decide) (Or.inl ⟨2, by decide⟩)).trans
      (by decide),
   by decide⟩

/-! ### C15: the space figures against the byte size -/

/-- In the fixed-sector-size build the space figure of every sector count is
its byte size at 512 bytes per sector divided by 2^20. -/
theorem space_fixed_exact (_MIN_SS : Nat) (fs : FATFS) (sector : Nat) :
    space _MIN_SS _MIN_SS fs sector = sector * 512 / 2 ^ 20 := by
  simp only [space, if_true, Nat.shiftRight_eq_div_pow]
  omega

/-- C15, evaluated in the variable-sector-size build on a 4 GiB volume (2^20
clusters of 8 sectors of 512 bytes, one cluster free): the total space printed
is 0 KB, while the 8388608 sectors hold 4194304 KB. -/
theorem fatTest_GetDiskInfo_4GiB_prints_0_KB :
    fatTest_GetDiskInfo 4096 512 FRESULT.FR_OK 1 fs_4GiB =
      [⟨"*** FAT disk info ***\r\n", []⟩,
       ⟨"FAT type = %d\r\n", [PArg.num 3]⟩,
       ⟨"[1=FAT12,2=FAT16,3=FAT32,4=EXFAT]\r\n", []⟩,
       ⟨"Sector size(bytes) = %d\r\n", [PArg.num 512]⟩,
       ⟨"Cluster size(sectors) = %d\r\n", [PArg.num 8]⟩,
       ⟨"Total cluster count = %d\r\n", [PArg.num 1048576]⟩,
       ⟨"Total sector count = %d\r\n", [PArg.num 8388608]⟩,
       ⟨"Total space(KB) = %d\r\n", [PArg.num 0]⟩,
       ⟨"Free cluster count = %d\r\n", [PArg.num 1]⟩,
       ⟨"Free sector count = %d\r\n", [PArg.num 8]⟩,
       ⟨"Free space(KB) = %d\r\n", [PArg.num 4]⟩,
       ⟨"Get FAT disk info OK\r\n", []⟩] ∧
    total_sector fs_4GiB * fs_4GiB.ssize / 1024 = 4194304 := by
  decide

/-! ### C16: the report after a failed erase -/

/-- C16, evaluated on a failed erase with the card already in the transfer
state: the output of `SDCard_EraseBlocks` holds `Erase blocks error` and, after
it, `Blocks 0-10 is erased.` -/
theorem SDCard_EraseBlocks_reports_erased_after_error :
    SDCard_EraseBlocks 1 HAL_StatusTypeDef.HAL_ERROR (fun _ => HAL_SD_CARD_TRANSFER) =
      some { cardState := HAL_SD_CARD_TRANSFER
             out :=
               [⟨"*** Erasing blocks ***\r\n", []⟩,
                ⟨"Erase blocks error\r\n", []⟩,
                ⟨"GetCardState() = %d\r\n", [PArg.num 4]⟩,
                ⟨"GetCardState() = %d\r\n", [PArg.num 4]⟩,
                ⟨"Blocks 0-10 is erased.\r\n", []⟩]
             log := [Call.HAL_SD_Erase 0 10, Call.HAL_SD_GetCardState] } := by
  decide

/-! ### C17: a failed date read -/

/-- C17, evaluated on an RTC whose time read succeeds and whose date read
returns `HAL_ERROR`: `fat_GetFatTimeFromRTC` makes both calls and returns the
timestamp packed from whatever `sDate` holds, not 0. -/
theorem fat_GetFatTimeFromRTC_ignores_date_status :
    rtc_date_fault.timeStatus = HAL_StatusTypeDef.HAL_OK ∧
    rtc_date_fault.dateStatus = HAL_StatusTypeDef.HAL_ERROR ∧
    fat_GetFatTimeFromRTC rtc_date_fault
      = ((44 * 2 ^ 9 + 3 * 2 ^ 5 + 15) * 2 ^ 16 + (10 * 2 ^ 11 + 30 * 2 ^ 5 + 10),
         [Call.HAL_RTC_GetTime, Call.HAL_RTC_GetDate]) ∧
    (fat_GetFatTimeFromRTC rtc_date_fault).1 ≠ 0 := by
  decide

/-! ### C18: the value 0 and the year field -/

theorem or_shiftRight_distrib (x y k : Nat) : (x ||| y) >>> k = (x >>> k) ||| (y >>> k) := by
  apply Nat.eq_of_testBit_eq
  intro i
  simp [Nat.testBit_shiftRight, Nat.testBit_or]

theorem le_or_small : ∀ a < 120, ∀ m < 16, a ≤ a ||| m := by
  decide

/-- The year field of the date word: the year offset or-ed with the bits of
the month from bit 4 up. -/
theorem fatDateExpr_year_field (d : RTC_DateTypeDef) (hY : d.Year ≤ 99) (hM : d.Month < 256)
    (hD : d.Date < 256) :
    fatDateExpr d < 65536 ∧ fatDateExpr d / 512 = (d.Year + 20) ||| (d.Month / 16) := by
  have hA : 2000 + d.Year - 1980 = d.Year + 20 := by omega
  constructor
  · unfold fatDateExpr
    rw [hA]
    have h1 : (d.Year + 20) <<< 9 < 2 ^ 16 := by
      rw [Nat.shiftLeft_eq]
      omega
    have h2 : d.Month <<< 5 < 2 ^ 16 := by
      rw [Nat.shiftLeft_eq]
      omega
    have h3 : d.Date < 2 ^ 16 := by omega
    exact Nat.or_lt_two_pow (Nat.or_lt_two_pow h1 h2) h3
  · have e : fatDateExpr d / 512 = fatDateExpr d >>> 9 := by
      rw [Nat.shiftRight_eq_div_pow]
    rw [e]
    unfold fatDateExpr
    rw [hA, or_shiftRight_distrib, or_shiftRight_distrib]
    have e1 : ((d.Year + 20) <<< 9) >>> 9 = d.Year + 20 := by
      rw [Nat.shiftLeft_eq, Nat.shiftRight_eq_div_pow]
      omega
    have e2 : (d.Month <<< 5) >>> 9 = d.Month / 16 := by
      rw [Nat.shiftLeft_eq, Nat.shiftRight_eq_div_pow]
      omega
    have e3 : d.Date >>> 9 = 0 := by
      rw [Nat.shiftRight_eq_div_pow]
      omega
    rw [e1, e2, e3, Nat.or_zero]

/-- C18 as stated fails for a month register of 16 (an 8-bit value): with
year 0 the year-offset field of the returned value is 21, not 20. -/
theorem fat_GetFatTimeFromRTC_month_16_year_field :
    rtc_month_16.timeStatus = HAL_StatusTypeDef.HAL_OK ∧
    rtc_month_16.sDate.Year ≤ 99 ∧ rtc_month_16.sDate.Month < 256 ∧
    rtc_month_16.sDate.Date < 256 ∧
    (fat_GetFatTimeFromRTC rtc_month_16).1 / 2 ^ 25 = 21 ∧
    (fat_GetFatTimeFromRTC rtc_month_16).1 / 2 ^ 25 ≠ rtc_month_16.sDate.Year + 20 := by
  decide

/-- C18, amended: for every RTC reading with Year in 0..99 and month and day
of 8 bits (any time fields) whose time read succeeds, `fat_GetFatTimeFromRTC`
returns a non-zero value; its year-offset field (bits 31..25) is
`(Year + 20) | (Month >> 4)`, which is at least `Year + 20 >= 20` and equals
`Year + 20` whenever Month is at most 15. -/
theorem fat_GetFatTimeFromRTC_nonzero (hrtc : RTC_HandleTypeDef)
    (hok : hrtc.timeStatus = HAL_StatusTypeDef.HAL_OK)
    (hY : hrtc.sDate.Year ≤ 99) (hM : hrtc.sDate.Month < 256) (hD : hrtc.sDate.Date < 256) :
    (fat_GetFatTimeFromRTC hrtc).1 ≠ 0 ∧
    (fat_GetFatTimeFromRTC hrtc).1 / 2 ^ 25
      = (hrtc.sDate.Year + 20) ||| (hrtc.sDate.Month / 16) ∧
    hrtc.sDate.Year + 20 ≤ (fat_GetFatTimeFromRTC hrtc).1 / 2 ^ 25 ∧
    20 ≤ (fat_GetFatTimeFromRTC hrtc).1 / 2 ^ 25 ∧
    (hrtc.sDate.Month ≤ 15 →
      (fat_GetFatTimeFromRTC hrtc).1 / 2 ^ 25 = hrtc.sDate.Year + 20) := by
  have hv := fat_GetFatTimeFromRTC_value hrtc hok
  obtain ⟨hlt, hfield⟩ := fatDateExpr_year_field hrtc.sDate hY hM hD
  have hge : hrtc.sDate.Year + 20 ≤ (hrtc.sDate.Year + 20) ||| (hrtc.sDate.Month / 16) :=
    le_or_small _ (by omega) _ (by omega)
  have hdiv : (fat_GetFatTimeFromRTC hrtc).1 / 2 ^ 25 = fatDateExpr hrtc.sDate / 512 := by
    rw [hv]
    omega
  have hfield2 : (fat_GetFatTimeFromRTC hrtc).1 / 2 ^ 25
      = (hrtc.sDate.Year + 20) ||| (hrtc.sDate.Month / 16) := by
    rw [hdiv, hfield]
  refine ⟨?_, hfield2, ?_, ?_, ?_⟩
  · intro h0
    rw [h0] at hfield2
    omega
  · rw [hfield2]
    exact hge
  · rw [hfield2]
    omega
  · intro h15
    have hz : hrtc.sDate.Month / 16 = 0 := by omega
    rw [hfield2, hz, Nat.or_zero]

/-- C18 (amended) at the reading 2024-03-15 10:30:20: the value is not 0 and
its year field is 44. -/
theorem fat_GetFatTimeFromRTC_nonzero_witness :
    (fat_GetFatTimeFromRTC rtc_2024_03_15).1 ≠ 0 ∧
    (fat_GetFatTimeFromRTC rtc_2024_03_15).1 / 2 ^ 25 = (24 + 20) ||| (3 / 16) ∧
    24 + 20 ≤ (fat_GetFatTimeFromRTC rtc_2024_03_15).1 / 2 ^ 25 ∧
    20 ≤ (fat_GetFatTimeFromRTC rtc_2024_03_15).1 / 2 ^ 25 ∧
    (3 ≤ 15 → (fat_GetFatTimeFromRTC rtc_2024_03_15).1 / 2 ^ 25 = 24 + 20) :=
  fat_GetFatTimeFromRTC_nonzero rtc_2024_03_15 rfl (by decide) (by decide) (by decide)

/-! ### C19: termination of the sample loops -/

theorem fatTest_ReadBinFile_loop_diverges (N : Nat) (hN : 65536 ≤ N) :
    ∀ (fuel i : Nat) (st : FIL × List Nat × List Call), i < 65536 →
      fatTest_ReadBinFile_loop N fuel i st = none := by
  intro fuel
  induction fuel with
  | zero =>
    intro i st _
    rfl
  | succ fuel ih =>
    intro i st hi
    have hlt : i < N := by omega
    rw [fatTest_ReadBinFile_loop, if_pos hlt]
    exact ih _ _ (to_u16_lt _)

theorem fatTest_WriteBinFile_loop_returns (N : Nat) (hN : N ≤ 65535) :
    ∀ (m i fuel value : Nat) (st : FIL × List Call), i + m = N → m + 1 ≤ fuel →
      (fatTest_WriteBinFile_loop N fuel i value st).isSome = true := by
  intro m
  induction m with
  | zero =>
    intro i fuel value st him hfuel
    obtain ⟨fuel, rfl⟩ : ∃ k, fuel = k + 1 := ⟨fuel - 1, by omega⟩
    have hi : ¬ i < N := by omega
    simp [fatTest_WriteBinFile_loop, hi]
  | succ m ih =>
    intro i fuel value st him hfuel
    obtain ⟨fuel, rfl⟩ : ∃ k, fuel = k + 1 := ⟨fuel - 1, by omega⟩
    have hi : i < N := by omega
    rw [fatTest_WriteBinFile_loop, if_pos hi, to_u16_succ_of_lt i (by omega)]
    exact ih (i + 1) fuel _ _ (by omega) (by omega)

theorem fatTest_ReadBinFile_loop_returns (N : Nat) (hN : N ≤ 65535) :
    ∀ (m i fuel : Nat) (st : FIL × List Nat × List Call), i + m = N → m + 1 ≤ fuel →
      (fatTest_ReadBinFile_loop N fuel i st).isSome = true := by
  intro m
  induction m with
  | zero =>
    intro i fuel st him hfuel
    obtain ⟨fuel, rfl⟩ : ∃ k, fuel = k + 1 := ⟨fuel - 1, by omega⟩
    have hi : ¬ i < N := by omega
    simp [fatTest_ReadBinFile_loop, hi]
  | succ m ih =>
    intro i fuel st him hfuel
    obtain ⟨fuel, rfl⟩ : ∃ k, fuel = k + 1 := ⟨fuel - 1, by omega⟩
    have hi : i < N := by omega
    rw [fatTest_ReadBinFile_loop, if_pos hi, to_u16_succ_of_lt i (by omega)]
    exact ih (i + 1) fuel _ (by omega) (by omega)

theorem fatTest_WriteBinFile_loop_count (N : Nat) (hN : N ≤ 65535) :
    ∀ (fuel i value : Nat) (st r : FIL × List Call), i ≤ N →
      fatTest_WriteBinFile_loop N fuel i value st = some r →
      r.2 = st.2 ++ List.replicate (N - i) Call.f_write := by
  intro fuel
  induction fuel with
  | zero =>
    intro i value st r _ h
    simp [fatTest_WriteBinFile_loop] at h
  | succ fuel ih =>
    intro i value st r hi h
    rw [fatTest_WriteBinFile_loop] at h
    split at h
    · rename_i hlt
      rw [to_u16_succ_of_lt i (by omega)] at h
      have := ih _ _ _ _ (by omega) h
      rw [this]
      have e : N - i = (N - (i + 1)) + 1 := by omega
      rw [e, List.replicate_succ]
      simp
    · have e : N - i = 0 := by omega
      simp only [Option.some.injEq] at h
      rw [← h, e]
      simp

theorem fatTest_ReadBinFile_loop_count (N : Nat) (hN : N ≤ 65535) :
    ∀ (fuel i : Nat) (st r : FIL × List Nat × List Call), i ≤ N →
      fatTest_ReadBinFile_loop N fuel i st = some r →
      r.2.2 = st.2.2 ++ List.replicate (N - i) Call.f_read ∧ r.2.1.length = st.2.1.length := by
  intro fuel
  induction fuel with
  | zero =>
    intro i st r _ h
    simp [fatTest_ReadBinFile_loop] at h
  | succ fuel ih =>
    intro i st r hi h
    rw [fatTest_ReadBinFile_loop] at h
    split at h
    · rename_i hlt
      rw [to_u16_succ_of_lt i (by omega)] at h
      have := ih _ _ _ (by omega) h
      rw [this.1, this.2]
      have e : N - i = (N - (i + 1)) + 1 := by omega
      rw [e, List.replicate_succ]
      simp
    · have e : N - i = 0 := by omega
      simp only [Option.some.injEq] at h
      rw [← h, e]
      simp

/-- C19: the sample loops of `fatTest_WriteBinFile` and `fatTest_ReadBinFile`,
entered with the 16-bit index 0, terminate if and only if `pointCount <= 65535`;
when they terminate they have made exactly `pointCount` `f_write` (respectively
`f_read`) calls; for `pointCount >= 65536` they never exit, the index wrapping
from 65535 to 0. -/
theorem sample_loops_terminate_iff (pointCount : Nat) :
    (∀ (value : Nat) (st : FIL × List Call),
      (∃ fuel, (fatTest_WriteBinFile_loop pointCount fuel 0 value st).isSome = true)
        ↔ pointCount ≤ 65535) ∧
    (∀ (fuel value : Nat) (st r : FIL × List Call),
      fatTest_WriteBinFile_loop pointCount fuel 0 value st = some r →
      r.2 = st.2 ++ List.replicate pointCount Call.f_write) ∧
    (∀ st : FIL × List Nat × List Call,
      (∃ fuel, (fatTest_ReadBinFile_loop pointCount fuel 0 st).isSome = true)
        ↔ pointCount ≤ 65535) ∧
    (∀ (fuel : Nat) (st r : FIL × List Nat × List Call),
      fatTest_ReadBinFile_loop pointCount fuel 0 st = some r →
      r.2.2 = st.2.2 ++ List.replicate pointCount Call.f_read) ∧
    (65536 ≤ pointCount →
      (∀ (fuel value : Nat) (st : FIL × List Call),
        fatTest_WriteBinFile_loop pointCount fuel 0 value st = none) ∧
      (∀ (fuel : Nat) (st : FIL × List Nat × List Call),
        fatTest_ReadBinFile_loop pointCount fuel 0 st = none)) ∧
    to_u16 (65535 + 1) = 0 := by
  have hw : ∀ (fuel value : Nat) (st : FIL × List Call),
      (fatTest_WriteBinFile_loop pointCount fuel 0 value st).isSome = true →
      pointCount ≤ 65535 := by
    intro fuel value st h
    by_contra hgt
    rw [fatTest_WriteBinFile_loop_diverges pointCount (by omega) fuel 0 value st
      (by decide)] at h
    simp at h
  have hr : ∀ (fuel : Nat) (st : FIL × List Nat × List Call),
      (fatTest_ReadBinFile_loop pointCount fuel 0 st).isSome = true →
      pointCount ≤ 65535 := by
    intro fuel st h
    by_contra hgt
    rw [fatTest_ReadBinFile_loop_diverges pointCount (by omega) fuel 0 st (by decide)] at h
    simp at h
  refine ⟨?_, ?_, ?_, ?_, ?_, by decide⟩
  · intro value st
    constructor
    · rintro ⟨fuel, h⟩
      exact hw fuel value st h
    · intro hN
      exact ⟨pointCount + 1, fatTest_WriteBinFile_loop_returns pointCount hN pointCount 0 _ _ _
        (by omega) (Nat.le_refl _)⟩
  · intro fuel value st r h
    have hN := hw fuel value st (by rw [h]; rfl)
    have := fatTest_WriteBinFile_loop_count pointCount hN fuel 0 value st r (Nat.zero_le _) h
    simpa using this
  · intro st
    constructor
    · rintro ⟨fuel, h⟩
      exact hr fuel st h
    · intro hN
      exact ⟨pointCount + 1, fatTest_ReadBinFile_loop_returns pointCount hN pointCount 0 _ _
        (by omega) (Nat.le_refl _)⟩
  · intro fuel st r h
    have hN := hr fuel st (by rw [h]; rfl)
    have := (fatTest_ReadBinFile_loop_count pointCount hN fuel 0 st r (Nat.zero_le _) h).1
    simpa using this
  · intro hN
    exact ⟨fun fuel value st =>
        fatTest_WriteBinFile_loop_diverges pointCount hN fuel 0 value st (by decide),
      fun fuel st => fatTest_ReadBinFile_loop_diverges pointCount hN fuel 0 st (by decide)⟩

/-- C19 at 20 samples (the loops exit, 20 calls) and at 65536 (they never
exit). -/
theorem sample_loops_terminate_iff_witness :
    (∃ fuel, (fatTest_WriteBinFile_loop 20 fuel 0 1000
      ({ done := [], rest := [] }, [])).isSome = true) ∧
    (∃ fuel, (fatTest_ReadBinFile_loop 20 fuel 0
      ({ done := [], rest := [] }, [], [])).isSome = true) ∧
    (∀ fuel, fatTest_WriteBinFile_loop 65536 fuel 0 1000
      ({ done := [], rest := [] }, []) = none) ∧
    (∀ fuel, fatTest_ReadBinFile_loop 65536 fuel 0
      ({ done := [], rest := [] }, [], []) = none) :=
  ⟨((sample_loops_terminate_iff 20).1 1000 _).mpr (by decide),
   ((sample_loops_terminate_iff 20).2.2.1 _).mpr (by decide),
   fun fuel => ((sample_loops_terminate_iff 65536).2.2.2.2.1 (by decide)).1 fuel 1000 _,
   fun fuel => ((sample_loops_terminate_iff 65536).2.2.2.2.1 (by decide)).2 fuel _⟩

/-! ### C20: the two samples printed by `fatTest_ReadBinFile` -/

/-- When `fatTest_ReadBinFile` returns with samples read, the sample loop has
run on a block of `(pointCount * 4 mod 2^32) / 4` words, and the output ends
with the lines for `values[5]` and `values[16]`. -/
theorem fatTest_ReadBinFile_values (fuel : Nat) (filename : String) (env : ReadBinEnv)
    (r : ReadBinResult) (d : BinData) (vs : List Nat)
    (h : fatTest_ReadBinFile fuel filename env = some r) (hd : r.read = some d)
    (hvs : d.values = some vs) :
    ∃ (fp : FIL) (log : List Call) (st : FIL × List Nat × List Call) (out : List Printf),
      fatTest_ReadBinFile_loop d.pointCount fuel 0
        (fp, (List.range (to_u32 (d.pointCount * 4) / 4)).map env.block0, log) = some st ∧
      vs = st.2.1 ∧
      r.out = out ++
        [⟨"Sample values:\r\n", []⟩,
         ⟨"  value[5] = %d\r\n", [wordArg vs 5]⟩,
         ⟨"  value[16] = %d\r\n", [wordArg vs 16]⟩,
         ⟨"--------------------------------\r\n", []⟩,
         ⟨"BIN file read completed\r\n", []⟩] := by
  by_cases hres : env.res = FRESULT.FR_OK
  · simp only [fatTest_ReadBinFile, hres, if_true] at h
    split at h
    · split at h
      · simp at h
      · rename_i st hst
        simp only [Option.some.injEq] at h
        subst h
        simp only [Option.some.injEq] at hd
        subst hd
        simp only [Option.some.injEq] at hvs
        subst hvs
        exact ⟨_, _, st, _, hst, rfl, rfl⟩
    · simp only [Option.some.injEq] at h
      subst h
      simp only [Option.some.injEq] at hd
      subst hd
      simp at hvs
  · by_cases hno : env.res = FRESULT.FR_NO_FILE
    · simp only [fatTest_ReadBinFile, hres, if_false, if_pos hno, Option.some.injEq] at h
      subst h
      simp at hd
    · simp only [fatTest_ReadBinFile, hres, hno, if_false, Option.some.injEq] at h
      subst h
      simp at hd

theorem fatTest_ReadBinFile_ADC500 :
    fatTest_ReadBinFile 21 "ADC500.dat" (readEnv (binFileBytes 20 500))
      = some adc500_readback := by
  decide

theorem wordArg_samples (N i : Nat) (hi : i < N) :
    wordArg ((List.range N).map (fun j => 1000 + j)) i = PArg.num (1000 + i) := by
  simp [wordArg, List.getElem?_map, List.getElem?_range hi]

/-- C20: whenever `fatTest_ReadBinFile` returns with samples read, `values` has
`pointCount` elements, whatever `pointCount` the file held, and the output has
the lines for `values[5]` and `values[16]`; with indexing into `values`
returning an `Option`, both reads are in bounds if and only if
`pointCount >= 17`.  For a file written by `fatTest_WriteBinFile` with
`17 <= pointCount <= 65535` the two printed samples are 1005 and 1016. -/
theorem fatTest_ReadBinFile_sample_reads :
    (∀ (fuel : Nat) (filename : String) (env : ReadBinEnv) (r : ReadBinResult) (d : BinData)
        (vs : List Nat),
      fatTest_ReadBinFile fuel filename env = some r → r.read = some d →
      d.values = some vs →
      vs.length = d.pointCount ∧
      (((vs[5]?).isSome = true ∧ (vs[16]?).isSome = true) ↔ 17 ≤ d.pointCount) ∧
      (⟨"  value[5] = %d\r\n", [wordArg vs 5]⟩ : Printf) ∈ r.out ∧
      (⟨"  value[16] = %d\r\n", [wordArg vs 16]⟩ : Printf) ∈ r.out) ∧
    (∀ (fuel : Nat) (filename : String) (N f : Nat) (env : ReadBinEnv),
      17 ≤ N → N ≤ 65535 → f < 4294967296 → env.res = FRESULT.FR_OK →
      env.mallocOk (4 * N) = true → N + 1 ≤ fuel →
      ∃ r, binRoundTrip fuel filename N f env = some r ∧
        (⟨"  value[5] = %d\r\n", [PArg.num 1005]⟩ : Printf) ∈ r.out ∧
        (⟨"  value[16] = %d\r\n", [PArg.num 1016]⟩ : Printf) ∈ r.out) := by
  constructor
  · intro fuel filename env r d vs h hd hvs
    obtain ⟨fp, log, st, out, hloop, hvals, hout⟩ :=
      fatTest_ReadBinFile_values fuel filename env r d vs h hd hvs
    have hN : d.pointCount ≤ 65535 := by
      by_contra hgt
      rw [fatTest_ReadBinFile_loop_diverges d.pointCount (by omega) fuel 0 _ (by decide)]
        at hloop
      simp at hloop
    have hlen := (fatTest_ReadBinFile_loop_count d.pointCount hN fuel 0 _ st (Nat.zero_le _)
      hloop).2
    have hsize : to_u32 (d.pointCount * 4) / 4 = d.pointCount := by
      unfold to_u32
      omega
    have hl : vs.length = d.pointCount := by
      rw [hvals, hlen]
      simp [hsize]
    refine ⟨hl, ?_, ?_, ?_⟩
    · constructor
      · rintro ⟨_, h16⟩
        rcases Nat.lt_or_ge 16 vs.length with hlt | hge
        · omega
        · rw [List.getElem?_eq_none_iff.mpr hge] at h16
          simp at h16
      · intro h17
        have h5 : 5 < vs.length := by omega
        have h16 : 16 < vs.length := by omega
        simp [List.getElem?_eq_getElem h5, List.getElem?_eq_getElem h16]
    · rw [hout]
      simp
    · rw [hout]
      simp
  · intro fuel filename N f env h17 hN hf hres hmalloc hfuel
    refine ⟨_, binRoundTrip_returns fuel filename N f env hN hf hres hmalloc hfuel, ?_, ?_⟩
    · rw [wordArg_samples N 5 (by omega)]
      simp
    · rw [wordArg_samples N 16 (by omega)]
      simp

/-- C20 on `ADC500.dat` written with 20 samples: reading it back prints 1005
and 1016, and both reads are in bounds. -/
theorem fatTest_ReadBinFile_sample_reads_witness :
    (∃ r, binRoundTrip 21 "ADC500.dat" 20 500 (readEnv []) = some r ∧
      (⟨"  value[5] = %d\r\n", [PArg.num 1005]⟩ : Printf) ∈ r.out ∧
      (⟨"  value[16] = %d\r\n", [PArg.num 1016]⟩ : Printf) ∈ r.out) ∧
    (∃ r d vs, fatTest_ReadBinFile 21 "ADC500.dat" (readEnv (binFileBytes 20 500)) = some r ∧
      r.read = some d ∧ d.values = some vs ∧ vs.length = d.pointCount ∧
      (((vs[5]?).isSome = true ∧ (vs[16]?).isSome = true) ↔ 17 ≤ d.pointCount)) :=
  ⟨fatTest_ReadBinFile_sample_reads.2 21 "ADC500.dat" 20 500 (readEnv []) (by decide)
      (by decide) (by decide) rfl rfl (by decide),
   ⟨adc500_readback, _, _, fatTest_ReadBinFile_ADC500, rfl, rfl,
    (fatTest_ReadBinFile_sample_reads.1 21 "ADC500.dat" (readEnv (binFileBytes 20 500))
      adc500_readback _ _ fatTest_ReadBinFile_ADC500 rfl rfl).1,
    (fatTest_ReadBinFile_sample_reads.1 21 "ADC500.dat" (readEnv (binFileBytes 20 500))
      adc500_readback _ _ fatTest_ReadBinFile_ADC500 rfl rfl).2.1⟩⟩

end SDCard
